import Mathlib

/-!
Agora RTM C API: the declared surface and the request/event contract.

The headers declare a table of callbacks (`struct C_IRtmEventHandler`), the value structs
the callbacks receive, and the functions of six handle types (client, stream channel,
storage, lock, presence, history).  The first part of this file transcribes those
declarations as data: every parameter keeps the type and the name the header gives it,
with blanks normalised (`uint64_t* requestId` and `uint64_t *requestId` both read
`uint64_t *` / `requestId`).  The second part holds the request correlator that the
specification describes around these declarations.
-/

namespace AgoraRtm

/-! ## Declarations -/

/-- A parameter of a function or a field of a struct: the C type as written and the name. -/
structure Param where
  ty : String
  name : String
deriving DecidableEq, Repr

/-- One function-pointer member of `struct C_IRtmEventHandler`; each of them returns `void`. -/
structure SlotDecl where
  name : String
  params : List Param
deriving DecidableEq, Repr

/-- The handle type a function belongs to, one per header. -/
inductive Api
  | client | streamChannel | storage | lock | presence | history
deriving DecidableEq, Repr

/-- A function prototype: handle type, return type, name, parameters, and the text of the
`@return` clause of its doc comment (`none` when the comment has no such clause). -/
structure FunDecl where
  api : Api
  ret : String
  name : String
  params : List Param
  returnDoc : Option String
deriving DecidableEq, Repr

/-- A value struct: its name and its fields in declaration order. -/
structure StructDecl where
  name : String
  fields : List Param
deriving DecidableEq, Repr

/-! ### `struct C_IRtmEventHandler` (C_IAgoraRtmClient.h, lines 44-94) -/

def onMessageEvent : SlotDecl :=
  ⟨"onMessageEvent",
   [⟨"struct C_IRtmEventHandler *", "handler"⟩, ⟨"const struct C_MessageEvent *", "event"⟩]⟩

def onPresenceEvent : SlotDecl :=
  ⟨"onPresenceEvent",
   [⟨"struct C_IRtmEventHandler *", "handler"⟩, ⟨"const struct C_PresenceEvent *", "event"⟩]⟩

def onTopicEvent : SlotDecl :=
  ⟨"onTopicEvent",
   [⟨"struct C_IRtmEventHandler *", "handler"⟩, ⟨"const struct C_TopicEvent *", "event"⟩]⟩

def onLockEvent : SlotDecl :=
  ⟨"onLockEvent",
   [⟨"struct C_IRtmEventHandler *", "handler"⟩, ⟨"const struct C_LockEvent *", "event"⟩]⟩

def onStorageEvent : SlotDecl :=
  ⟨"onStorageEvent",
   [⟨"struct C_IRtmEventHandler *", "handler"⟩, ⟨"const struct C_StorageEvent *", "event"⟩]⟩

def onJoinResult : SlotDecl :=
  ⟨"onJoinResult",
   [⟨"struct C_IRtmEventHandler *", "handler"⟩, ⟨"const uint64_t", "requestId"⟩,
    ⟨"const char *", "channelName"⟩, ⟨"const char *", "userId"⟩,
    ⟨"enum C_RTM_ERROR_CODE", "errorCode"⟩]⟩

def onLeaveResult : SlotDecl :=
  ⟨"onLeaveResult",
   [⟨"struct C_IRtmEventHandler *", "handler"⟩, ⟨"const uint64_t", "requestId"⟩,
    ⟨"const char *", "channelName"⟩, ⟨"const char *", "userId"⟩,
    ⟨"enum C_RTM_ERROR_CODE", "errorCode"⟩]⟩

def onJoinTopicResult : SlotDecl :=
  ⟨"onJoinTopicResult",
   [⟨"struct C_IRtmEventHandler *", "handler"⟩, ⟨"const uint64_t", "requestId"⟩,
    ⟨"const char *", "channelName"⟩, ⟨"const char *", "userId"⟩, ⟨"const char *", "topic"⟩,
    ⟨"const char *", "meta"⟩, ⟨"enum C_RTM_ERROR_CODE", "errorCode"⟩]⟩

def onLeaveTopicResult : SlotDecl :=
  ⟨"onLeaveTopicResult",
   [⟨"struct C_IRtmEventHandler *", "handler"⟩, ⟨"const uint64_t", "requestId"⟩,
    ⟨"const char *", "channelName"⟩, ⟨"const char *", "userId"⟩, ⟨"const char *", "topic"⟩,
    ⟨"const char *", "meta"⟩, ⟨"enum C_RTM_ERROR_CODE", "errorCode"⟩]⟩

def onSubscribeTopicResult : SlotDecl :=
  ⟨"onSubscribeTopicResult",
   [⟨"struct C_IRtmEventHandler *", "handler"⟩, ⟨"const uint64_t", "requestId"⟩,
    ⟨"const char *", "channelName"⟩, ⟨"const char *", "userId"⟩, ⟨"const char *", "topic"⟩,
    ⟨"struct C_UserList", "succeedUsers"⟩, ⟨"struct C_UserList", "failedUsers"⟩,
    ⟨"enum C_RTM_ERROR_CODE", "errorCode"⟩]⟩

def onConnectionStateChanged : SlotDecl :=
  ⟨"onConnectionStateChanged",
   [⟨"struct C_IRtmEventHandler *", "handler"⟩, ⟨"const char *", "channelName"⟩,
    ⟨"enum C_RTM_CONNECTION_STATE", "state"⟩, ⟨"enum C_RTM_CONNECTION_CHANGE_REASON", "reason"⟩]⟩

def onTokenPrivilegeWillExpire : SlotDecl :=
  ⟨"onTokenPrivilegeWillExpire",
   [⟨"struct C_IRtmEventHandler *", "handler"⟩, ⟨"const char *", "channelName"⟩]⟩

def onSubscribeResult : SlotDecl :=
  ⟨"onSubscribeResult",
   [⟨"struct C_IRtmEventHandler *", "handler"⟩, ⟨"const uint64_t", "requestId"⟩,
    ⟨"const char *", "channelName"⟩, ⟨"enum C_RTM_ERROR_CODE", "errorCode"⟩]⟩

def onUnsubscribeResult : SlotDecl :=
  ⟨"onUnsubscribeResult",
   [⟨"struct C_IRtmEventHandler *", "handler"⟩, ⟨"const uint64_t", "requestId"⟩,
    ⟨"const char *", "channelName"⟩, ⟨"enum C_RTM_ERROR_CODE", "errorCode"⟩]⟩

def onPublishResult : SlotDecl :=
  ⟨"onPublishResult",
   [⟨"struct C_IRtmEventHandler *", "handler"⟩, ⟨"const uint64_t", "requestId"⟩,
    ⟨"enum C_RTM_ERROR_CODE", "errorCode"⟩]⟩

def onLoginResult : SlotDecl :=
  ⟨"onLoginResult",
   [⟨"struct C_IRtmEventHandler *", "handler"⟩, ⟨"const uint64_t", "requestId"⟩,
    ⟨"enum C_RTM_ERROR_CODE", "errorCode"⟩]⟩

def onSetChannelMetadataResult : SlotDecl :=
  ⟨"onSetChannelMetadataResult",
   [⟨"struct C_IRtmEventHandler *", "handler"⟩, ⟨"const uint64_t", "requestId"⟩,
    ⟨"const char *", "channelName"⟩, ⟨"enum C_RTM_CHANNEL_TYPE", "channelType"⟩,
    ⟨"enum C_RTM_ERROR_CODE", "errorCode"⟩]⟩

def onUpdateChannelMetadataResult : SlotDecl :=
  ⟨"onUpdateChannelMetadataResult",
   [⟨"struct C_IRtmEventHandler *", "handler"⟩, ⟨"const uint64_t", "requestId"⟩,
    ⟨"const char *", "channelName"⟩, ⟨"enum C_RTM_CHANNEL_TYPE", "channelType"⟩,
    ⟨"enum C_RTM_ERROR_CODE", "errorCode"⟩]⟩

def onRemoveChannelMetadataResult : SlotDecl :=
  ⟨"onRemoveChannelMetadataResult",
   [⟨"struct C_IRtmEventHandler *", "handler"⟩, ⟨"const uint64_t", "requestId"⟩,
    ⟨"const char *", "channelName"⟩, ⟨"enum C_RTM_CHANNEL_TYPE", "channelType"⟩,
    ⟨"enum C_RTM_ERROR_CODE", "errorCode"⟩]⟩

def onGetChannelMetadataResult : SlotDecl :=
  ⟨"onGetChannelMetadataResult",
   [⟨"struct C_IRtmEventHandler *", "handler"⟩, ⟨"const uint64_t", "requestId"⟩,
    ⟨"const char *", "channelName"⟩, ⟨"enum C_RTM_CHANNEL_TYPE", "channelType"⟩,
    ⟨"const struct C_Metadata *", "data"⟩, ⟨"enum C_RTM_ERROR_CODE", "errorCode"⟩]⟩

def onSetUserMetadataResult : SlotDecl :=
  ⟨"onSetUserMetadataResult",
   [⟨"struct C_IRtmEventHandler *", "handler"⟩, ⟨"const uint64_t", "requestId"⟩,
    ⟨"const char *", "userId"⟩, ⟨"enum C_RTM_ERROR_CODE", "errorCode"⟩]⟩

def onUpdateUserMetadataResult : SlotDecl :=
  ⟨"onUpdateUserMetadataResult",
   [⟨"struct C_IRtmEventHandler *", "handler"⟩, ⟨"const uint64_t", "requestId"⟩,
    ⟨"const char *", "userId"⟩, ⟨"enum C_RTM_ERROR_CODE", "errorCode"⟩]⟩

def onRemoveUserMetadataResult : SlotDecl :=
  ⟨"onRemoveUserMetadataResult",
   [⟨"struct C_IRtmEventHandler *", "handler"⟩, ⟨"const uint64_t", "requestId"⟩,
    ⟨"const char *", "userId"⟩, ⟨"enum C_RTM_ERROR_CODE", "errorCode"⟩]⟩

def onGetUserMetadataResult : SlotDecl :=
  ⟨"onGetUserMetadataResult",
   [⟨"struct C_IRtmEventHandler *", "handler"⟩, ⟨"const uint64_t", "requestId"⟩,
    ⟨"const char *", "userId"⟩, ⟨"const struct C_Metadata *", "data"⟩,
    ⟨"enum C_RTM_ERROR_CODE", "errorCode"⟩]⟩

def onSubscribeUserMetadataResult : SlotDecl :=
  ⟨"onSubscribeUserMetadataResult",
   [⟨"struct C_IRtmEventHandler *", "handler"⟩, ⟨"const uint64_t", "requestId"⟩,
    ⟨"const char *", "userId"⟩, ⟨"enum C_RTM_ERROR_CODE", "errorCode"⟩]⟩

def onSetLockResult : SlotDecl :=
  ⟨"onSetLockResult",
   [⟨"struct C_IRtmEventHandler *", "handler"⟩, ⟨"const uint64_t", "requestId"⟩,
    ⟨"const char *", "channelName"⟩, ⟨"enum C_RTM_CHANNEL_TYPE", "channelType"⟩,
    ⟨"const char *", "lockName"⟩, ⟨"enum C_RTM_ERROR_CODE", "errorCode"⟩]⟩

def onRemoveLockResult : SlotDecl :=
  ⟨"onRemoveLockResult",
   [⟨"struct C_IRtmEventHandler *", "handler"⟩, ⟨"const uint64_t", "requestId"⟩,
    ⟨"const char *", "channelName"⟩, ⟨"enum C_RTM_CHANNEL_TYPE", "channelType"⟩,
    ⟨"const char *", "lockName"⟩, ⟨"enum C_RTM_ERROR_CODE", "errorCode"⟩]⟩

def onReleaseLockResult : SlotDecl :=
  ⟨"onReleaseLockResult",
   [⟨"struct C_IRtmEventHandler *", "handler"⟩, ⟨"const uint64_t", "requestId"⟩,
    ⟨"const char *", "channelName"⟩, ⟨"enum C_RTM_CHANNEL_TYPE", "channelType"⟩,
    ⟨"const char *", "lockName"⟩, ⟨"enum C_RTM_ERROR_CODE", "errorCode"⟩]⟩

def onAcquireLockResult : SlotDecl :=
  ⟨"onAcquireLockResult",
   [⟨"struct C_IRtmEventHandler *", "handler"⟩, ⟨"const uint64_t", "requestId"⟩,
    ⟨"const char *", "channelName"⟩, ⟨"enum C_RTM_CHANNEL_TYPE", "channelType"⟩,
    ⟨"const char *", "lockName"⟩, ⟨"enum C_RTM_ERROR_CODE", "errorCode"⟩,
    ⟨"const char *", "errorDetails"⟩]⟩

def onRevokeLockResult : SlotDecl :=
  ⟨"onRevokeLockResult",
   [⟨"struct C_IRtmEventHandler *", "handler"⟩, ⟨"const uint64_t", "requestId"⟩,
    ⟨"const char *", "channelName"⟩, ⟨"enum C_RTM_CHANNEL_TYPE", "channelType"⟩,
    ⟨"const char *", "lockName"⟩, ⟨"enum C_RTM_ERROR_CODE", "errorCode"⟩]⟩

def onGetLocksResult : SlotDecl :=
  ⟨"onGetLocksResult",
   [⟨"struct C_IRtmEventHandler *", "handler"⟩, ⟨"const uint64_t", "requestId"⟩,
    ⟨"const char *", "channelName"⟩, ⟨"enum C_RTM_CHANNEL_TYPE", "channelType"⟩,
    ⟨"const struct C_LockDetail *", "lockDetailList"⟩, ⟨"const size_t", "count"⟩,
    ⟨"enum C_RTM_ERROR_CODE", "errorCode"⟩]⟩

def onWhoNowResult : SlotDecl :=
  ⟨"onWhoNowResult",
   [⟨"struct C_IRtmEventHandler *", "handler"⟩, ⟨"const uint64_t", "requestId"⟩,
    ⟨"const struct C_UserState *", "userStateList"⟩, ⟨"const size_t", "count"⟩,
    ⟨"const char *", "nextPage"⟩, ⟨"enum C_RTM_ERROR_CODE", "errorCode"⟩]⟩

def onGetOnlineUsersResult : SlotDecl :=
  ⟨"onGetOnlineUsersResult",
   [⟨"struct C_IRtmEventHandler *", "handler"⟩, ⟨"const uint64_t", "requestId"⟩,
    ⟨"const struct C_UserState *", "userStateList"⟩, ⟨"const size_t", "count"⟩,
    ⟨"const char *", "nextPage"⟩, ⟨"enum C_RTM_ERROR_CODE", "errorCode"⟩]⟩

def onWhereNowResult : SlotDecl :=
  ⟨"onWhereNowResult",
   [⟨"struct C_IRtmEventHandler *", "handler"⟩, ⟨"const uint64_t", "requestId"⟩,
    ⟨"const struct C_ChannelInfo *", "channels"⟩, ⟨"const size_t", "count"⟩,
    ⟨"enum C_RTM_ERROR_CODE", "errorCode"⟩]⟩

def onGetUserChannelsResult : SlotDecl :=
  ⟨"onGetUserChannelsResult",
   [⟨"struct C_IRtmEventHandler *", "handler"⟩, ⟨"const uint64_t", "requestId"⟩,
    ⟨"const struct C_ChannelInfo *", "channels"⟩, ⟨"const size_t", "count"⟩,
    ⟨"enum C_RTM_ERROR_CODE", "errorCode"⟩]⟩

def onPresenceSetStateResult : SlotDecl :=
  ⟨"onPresenceSetStateResult",
   [⟨"struct C_IRtmEventHandler *", "handler"⟩, ⟨"const uint64_t", "requestId"⟩,
    ⟨"enum C_RTM_ERROR_CODE", "errorCode"⟩]⟩

def onPresenceRemoveStateResult : SlotDecl :=
  ⟨"onPresenceRemoveStateResult",
   [⟨"struct C_IRtmEventHandler *", "handler"⟩, ⟨"const uint64_t", "requestId"⟩,
    ⟨"enum C_RTM_ERROR_CODE", "errorCode"⟩]⟩

def onPresenceGetStateResult : SlotDecl :=
  ⟨"onPresenceGetStateResult",
   [⟨"struct C_IRtmEventHandler *", "handler"⟩, ⟨"const uint64_t", "requestId"⟩,
    ⟨"const struct C_UserState *", "state"⟩, ⟨"enum C_RTM_ERROR_CODE", "errorCode"⟩]⟩

def onLinkStateEvent : SlotDecl :=
  ⟨"onLinkStateEvent",
   [⟨"struct C_IRtmEventHandler *", "handler"⟩, ⟨"const struct C_LinkStateEvent *", "event"⟩]⟩

def onGetHistoryMessagesResult : SlotDecl :=
  ⟨"onGetHistoryMessagesResult",
   [⟨"struct C_IRtmEventHandler *", "handler"⟩, ⟨"const uint64_t", "requestId"⟩,
    ⟨"const struct C_HistoryMessage *", "messageList"⟩, ⟨"const size_t", "count"⟩,
    ⟨"const uint64_t", "newStart"⟩, ⟨"enum C_RTM_ERROR_CODE", "errorCode"⟩]⟩

def onLogoutResult : SlotDecl :=
  ⟨"onLogoutResult",
   [⟨"struct C_IRtmEventHandler *", "handler"⟩, ⟨"const uint64_t", "requestId"⟩,
    ⟨"enum C_RTM_ERROR_CODE", "errorCode"⟩]⟩

def onRenewTokenResult : SlotDecl :=
  ⟨"onRenewTokenResult",
   [⟨"struct C_IRtmEventHandler *", "handler"⟩, ⟨"const uint64_t", "requestId"⟩,
    ⟨"enum C_RTM_SERVICE_TYPE", "serverType"⟩, ⟨"const char *", "channelName"⟩,
    ⟨"enum C_RTM_ERROR_CODE", "errorCode"⟩]⟩

def onPublishTopicMessageResult : SlotDecl :=
  ⟨"onPublishTopicMessageResult",
   [⟨"struct C_IRtmEventHandler *", "handler"⟩, ⟨"const uint64_t", "requestId"⟩,
    ⟨"const char *", "channelName"⟩, ⟨"const char *", "topic"⟩,
    ⟨"enum C_RTM_ERROR_CODE", "errorCode"⟩]⟩

def onUnsubscribeTopicResult : SlotDecl :=
  ⟨"onUnsubscribeTopicResult",
   [⟨"struct C_IRtmEventHandler *", "handler"⟩, ⟨"const uint64_t", "requestId"⟩,
    ⟨"const char *", "channelName"⟩, ⟨"const char *", "topic"⟩,
    ⟨"enum C_RTM_ERROR_CODE", "errorCode"⟩]⟩

def onGetSubscribedUserListResult : SlotDecl :=
  ⟨"onGetSubscribedUserListResult",
   [⟨"struct C_IRtmEventHandler *", "handler"⟩, ⟨"const uint64_t", "requestId"⟩,
    ⟨"const char *", "channelName"⟩, ⟨"const char *", "topic"⟩, ⟨"struct C_UserList", "users"⟩,
    ⟨"enum C_RTM_ERROR_CODE", "errorCode"⟩]⟩

def onUnsubscribeUserMetadataResult : SlotDecl :=
  ⟨"onUnsubscribeUserMetadataResult",
   [⟨"struct C_IRtmEventHandler *", "handler"⟩, ⟨"const uint64_t", "requestId"⟩,
    ⟨"const char *", "userId"⟩, ⟨"enum C_RTM_ERROR_CODE", "errorCode"⟩]⟩

/-- The function-pointer members of `struct C_IRtmEventHandler`, in declaration order; its
last member, `void *userData`, is not a callback. -/
def C_IRtmEventHandler : List SlotDecl :=
  [onMessageEvent, onPresenceEvent, onTopicEvent, onLockEvent, onStorageEvent, onJoinResult,
   onLeaveResult, onJoinTopicResult, onLeaveTopicResult, onSubscribeTopicResult,
   onConnectionStateChanged, onTokenPrivilegeWillExpire, onSubscribeResult, onUnsubscribeResult,
   onPublishResult, onLoginResult, onSetChannelMetadataResult, onUpdateChannelMetadataResult,
   onRemoveChannelMetadataResult, onGetChannelMetadataResult, onSetUserMetadataResult,
   onUpdateUserMetadataResult, onRemoveUserMetadataResult, onGetUserMetadataResult,
   onSubscribeUserMetadataResult, onSetLockResult, onRemoveLockResult, onReleaseLockResult,
   onAcquireLockResult, onRevokeLockResult, onGetLocksResult, onWhoNowResult,
   onGetOnlineUsersResult, onWhereNowResult, onGetUserChannelsResult, onPresenceSetStateResult,
   onPresenceRemoveStateResult, onPresenceGetStateResult, onLinkStateEvent,
   onGetHistoryMessagesResult, onLogoutResult, onRenewTokenResult, onPublishTopicMessageResult,
   onUnsubscribeTopicResult, onGetSubscribedUserListResult, onUnsubscribeUserMetadataResult]

/-! ### Event structs and the structs nested in them (C_IAgoraRtmClient.h, C_IAgoraRtmStorage.h) -/

def C_LinkStateEvent : StructDecl :=
  ⟨"C_LinkStateEvent",
   [⟨"enum C_RTM_LINK_STATE", "currentState"⟩, ⟨"enum C_RTM_LINK_STATE", "previousState"⟩,
    ⟨"enum C_RTM_SERVICE_TYPE", "serviceType"⟩, ⟨"enum C_RTM_LINK_OPERATION", "operation"⟩,
    ⟨"enum C_RTM_LINK_STATE_CHANGE_REASON", "reasonCode"⟩, ⟨"const char *", "reason"⟩,
    ⟨"const char **", "affectedChannels"⟩, ⟨"size_t", "affectedChannelCount"⟩,
    ⟨"const char **", "unrestoredChannels"⟩, ⟨"size_t", "unrestoredChannelCount"⟩,
    ⟨"bool", "isResumed"⟩, ⟨"uint64_t", "timestamp"⟩]⟩

def C_MessageEvent : StructDecl :=
  ⟨"C_MessageEvent",
   [⟨"enum C_RTM_CHANNEL_TYPE", "channelType"⟩, ⟨"enum C_RTM_MESSAGE_TYPE", "messageType"⟩,
    ⟨"const char *", "channelName"⟩, ⟨"const char *", "channelTopic"⟩, ⟨"const char *", "message"⟩,
    ⟨"size_t", "messageLength"⟩, ⟨"const char *", "publisher"⟩, ⟨"const char *", "customType"⟩]⟩

def C_IntervalInfo : StructDecl :=
  ⟨"C_IntervalInfo",
   [⟨"struct C_UserList", "joinUserList"⟩, ⟨"struct C_UserList", "leaveUserList"⟩,
    ⟨"struct C_UserList", "timeoutUserList"⟩, ⟨"struct C_UserState *", "userStateList"⟩,
    ⟨"size_t", "userStateCount"⟩]⟩

def C_SnapshotInfo : StructDecl :=
  ⟨"C_SnapshotInfo",
   [⟨"struct C_UserState *", "userStateList"⟩, ⟨"size_t", "userCount"⟩]⟩

def C_PresenceEvent : StructDecl :=
  ⟨"C_PresenceEvent",
   [⟨"enum C_RTM_PRESENCE_EVENT_TYPE", "type"⟩, ⟨"enum C_RTM_CHANNEL_TYPE", "channelType"⟩,
    ⟨"const char *", "channelName"⟩, ⟨"const char *", "publisher"⟩,
    ⟨"const struct C_StateItem *", "stateItems"⟩, ⟨"size_t", "stateItemCount"⟩,
    ⟨"struct C_IntervalInfo", "interval"⟩, ⟨"struct C_SnapshotInfo", "snapshot"⟩]⟩

def C_TopicEvent : StructDecl :=
  ⟨"C_TopicEvent",
   [⟨"enum C_RTM_TOPIC_EVENT_TYPE", "type"⟩, ⟨"const char *", "channelName"⟩,
    ⟨"const char *", "publisher"⟩, ⟨"const struct C_TopicInfo *", "topicInfos"⟩,
    ⟨"size_t", "topicInfoCount"⟩]⟩

def C_LockEvent : StructDecl :=
  ⟨"C_LockEvent",
   [⟨"enum C_RTM_CHANNEL_TYPE", "channelType"⟩, ⟨"enum C_RTM_LOCK_EVENT_TYPE", "eventType"⟩,
    ⟨"const char *", "channelName"⟩, ⟨"const struct C_LockDetail *", "lockDetailList"⟩,
    ⟨"size_t", "count"⟩]⟩

def C_StorageEvent : StructDecl :=
  ⟨"C_StorageEvent",
   [⟨"enum C_RTM_CHANNEL_TYPE", "channelType"⟩, ⟨"enum C_RTM_STORAGE_TYPE", "storageType"⟩,
    ⟨"enum C_RTM_STORAGE_EVENT_TYPE", "eventType"⟩, ⟨"const char *", "target"⟩,
    ⟨"struct C_Metadata *", "data"⟩]⟩

def C_MetadataItem : StructDecl :=
  ⟨"C_MetadataItem",
   [⟨"const char *", "key"⟩, ⟨"const char *", "value"⟩, ⟨"const char *", "authorUserId"⟩,
    ⟨"int64_t", "revision"⟩, ⟨"int64_t", "updateTs"⟩]⟩

def C_Metadata : StructDecl :=
  ⟨"C_Metadata",
   [⟨"int64_t", "majorRevision"⟩, ⟨"struct C_MetadataItem *", "items"⟩, ⟨"size_t", "itemCount"⟩]⟩

/-! ### Functions of the six handle types -/

/-! #### C_IAgoraRtmClient.h, lines 468-621 -/

def agora_rtm_client_release : FunDecl :=
  ⟨.client, "int", "agora_rtm_client_release",
   [⟨"C_IRtmClient *", "this_"⟩],
   some "- 0: Success. - < 0: Failure."⟩

def agora_rtm_client_login : FunDecl :=
  ⟨.client, "int", "agora_rtm_client_login",
   [⟨"C_IRtmClient *", "this_"⟩, ⟨"const char *", "token"⟩, ⟨"uint64_t *", "requestId"⟩],
   some "- 0: Success. - < 0: Failure."⟩

def agora_rtm_client_logout : FunDecl :=
  ⟨.client, "int", "agora_rtm_client_logout",
   [⟨"C_IRtmClient *", "this_"⟩, ⟨"uint64_t *", "requestId"⟩],
   some "- 0: Success. - < 0: Failure."⟩

def agora_rtm_client_get_storage : FunDecl :=
  ⟨.client, "C_IRtmStorage *", "agora_rtm_client_get_storage",
   [⟨"C_IRtmClient *", "this_"⟩],
   some "- return NULL if error occurred"⟩

def agora_rtm_client_get_lock : FunDecl :=
  ⟨.client, "C_IRtmLock *", "agora_rtm_client_get_lock",
   [⟨"C_IRtmClient *", "this_"⟩],
   some "- return NULL if error occurred"⟩

def agora_rtm_client_get_presence : FunDecl :=
  ⟨.client, "C_IRtmPresence *", "agora_rtm_client_get_presence",
   [⟨"C_IRtmClient *", "this_"⟩],
   some "- return NULL if error occurred"⟩

def agora_rtm_client_get_history : FunDecl :=
  ⟨.client, "C_IRtmHistory *", "agora_rtm_client_get_history",
   [⟨"C_IRtmClient *", "this_"⟩],
   some "- return NULL if error occurred"⟩

def agora_rtm_client_renew_token : FunDecl :=
  ⟨.client, "int", "agora_rtm_client_renew_token",
   [⟨"C_IRtmClient *", "this_"⟩, ⟨"const char *", "token"⟩, ⟨"uint64_t *", "requestId"⟩],
   some "- 0: Success. - < 0: Failure."⟩

def agora_rtm_client_publish : FunDecl :=
  ⟨.client, "int", "agora_rtm_client_publish",
   [⟨"C_IRtmClient *", "this_"⟩, ⟨"const char *", "channelName"⟩, ⟨"const char *", "message"⟩,
    ⟨"const size_t", "length"⟩, ⟨"const struct C_PublishOptions *", "option"⟩,
    ⟨"uint64_t *", "requestId"⟩],
   some "- 0: Success. - < 0: Failure."⟩

def agora_rtm_client_subscribe : FunDecl :=
  ⟨.client, "int", "agora_rtm_client_subscribe",
   [⟨"C_IRtmClient *", "this_"⟩, ⟨"const char *", "channelName"⟩,
    ⟨"const struct C_SubscribeOptions *", "options"⟩, ⟨"uint64_t *", "requestId"⟩],
   some "- 0: Success. - < 0: Failure."⟩

def agora_rtm_client_unsubscribe : FunDecl :=
  ⟨.client, "int", "agora_rtm_client_unsubscribe",
   [⟨"C_IRtmClient *", "this_"⟩, ⟨"const char *", "channelName"⟩, ⟨"uint64_t *", "requestId"⟩],
   some "- 0: Success. - < 0: Failure."⟩

def agora_rtm_client_create_stream_channel : FunDecl :=
  ⟨.client, "C_IStreamChannel *", "agora_rtm_client_create_stream_channel",
   [⟨"C_IRtmClient *", "this_"⟩, ⟨"const char *", "channelName"⟩, ⟨"int *", "errorCode"⟩],
   some "- return NULL if error occurred"⟩

def agora_rtm_client_set_parameters : FunDecl :=
  ⟨.client, "int", "agora_rtm_client_set_parameters",
   [⟨"C_IRtmClient *", "this_"⟩, ⟨"const char *", "parameters"⟩],
   some "- 0: Success. - < 0: Failure."⟩

def agora_rtm_client_create : FunDecl :=
  ⟨.client, "C_IRtmClient *", "agora_rtm_client_create",
   [⟨"const struct C_RtmConfig *", "config"⟩, ⟨"int *", "errorCode"⟩],
   some "Pointer of the rtm client object."⟩

def agora_rtm_client_get_error_reason : FunDecl :=
  ⟨.client, "const char *", "agora_rtm_client_get_error_reason",
   [⟨"int", "errorCode"⟩],
   some "The error reason"⟩

def agora_rtm_client_get_version : FunDecl :=
  ⟨.client, "const char *", "agora_rtm_client_get_version",
   [],
   some "The version info of the Agora RTM SDK."⟩

/-! #### C_IAgoraStreamChannel.h, lines 136-228 -/

def agora_rtm_stream_channel_join : FunDecl :=
  ⟨.streamChannel, "void", "agora_rtm_stream_channel_join",
   [⟨"C_IStreamChannel *", "this_"⟩, ⟨"const struct C_JoinChannelOptions *", "options"⟩,
    ⟨"uint64_t *", "requestId"⟩],
   none⟩

def agora_rtm_stream_channel_renew_token : FunDecl :=
  ⟨.streamChannel, "void", "agora_rtm_stream_channel_renew_token",
   [⟨"C_IStreamChannel *", "this_"⟩, ⟨"const char *", "token"⟩, ⟨"uint64_t *", "requestId"⟩],
   none⟩

def agora_rtm_stream_channel_leave : FunDecl :=
  ⟨.streamChannel, "void", "agora_rtm_stream_channel_leave",
   [⟨"C_IStreamChannel *", "this_"⟩, ⟨"uint64_t *", "requestId"⟩],
   none⟩

def agora_rtm_stream_channel_get_channel_name : FunDecl :=
  ⟨.streamChannel, "const char *", "agora_rtm_stream_channel_get_channel_name",
   [⟨"C_IStreamChannel *", "this_"⟩],
   some "The channel name."⟩

def agora_rtm_stream_channel_join_topic : FunDecl :=
  ⟨.streamChannel, "void", "agora_rtm_stream_channel_join_topic",
   [⟨"C_IStreamChannel *", "this_"⟩, ⟨"const char *", "topic"⟩,
    ⟨"const struct C_JoinTopicOptions *", "options"⟩, ⟨"uint64_t *", "requestId"⟩],
   none⟩

def agora_rtm_stream_channel_publish_topic_message : FunDecl :=
  ⟨.streamChannel, "void", "agora_rtm_stream_channel_publish_topic_message",
   [⟨"C_IStreamChannel *", "this_"⟩, ⟨"const char *", "topic"⟩, ⟨"const char *", "message"⟩,
    ⟨"size_t", "length"⟩, ⟨"const struct C_TopicMessageOptions *", "option"⟩,
    ⟨"uint64_t *", "requestId"⟩],
   none⟩

def agora_rtm_stream_channel_leave_topic : FunDecl :=
  ⟨.streamChannel, "void", "agora_rtm_stream_channel_leave_topic",
   [⟨"C_IStreamChannel *", "this_"⟩, ⟨"const char *", "topic"⟩, ⟨"uint64_t *", "requestId"⟩],
   none⟩

def agora_rtm_stream_channel_subscribe_topic : FunDecl :=
  ⟨.streamChannel, "void", "agora_rtm_stream_channel_subscribe_topic",
   [⟨"C_IStreamChannel *", "this_"⟩, ⟨"const char *", "topic"⟩,
    ⟨"const struct C_TopicOptions *", "options"⟩, ⟨"uint64_t *", "requestId"⟩],
   none⟩

def agora_rtm_stream_channel_unsubscribe_topic : FunDecl :=
  ⟨.streamChannel, "void", "agora_rtm_stream_channel_unsubscribe_topic",
   [⟨"C_IStreamChannel *", "this_"⟩, ⟨"const char *", "topic"⟩,
    ⟨"const struct C_TopicOptions *", "options"⟩, ⟨"uint64_t *", "requestId"⟩],
   none⟩

def agora_rtm_stream_channel_get_subscribed_user_list : FunDecl :=
  ⟨.streamChannel, "void", "agora_rtm_stream_channel_get_subscribed_user_list",
   [⟨"C_IStreamChannel *", "this_"⟩, ⟨"const char *", "topic"⟩, ⟨"uint64_t *", "requestId"⟩],
   none⟩

def agora_rtm_stream_channel_release : FunDecl :=
  ⟨.streamChannel, "int", "agora_rtm_stream_channel_release",
   [⟨"C_IStreamChannel *", "this_"⟩],
   some "- 0: Success. - < 0: Failure."⟩

/-! #### C_IAgoraRtmStorage.h, lines 80-177 -/

def agora_rtm_storage_set_channel_metadata : FunDecl :=
  ⟨.storage, "void", "agora_rtm_storage_set_channel_metadata",
   [⟨"C_IRtmStorage *", "this_"⟩, ⟨"const char *", "channelName"⟩,
    ⟨"enum C_RTM_CHANNEL_TYPE", "channelType"⟩, ⟨"const struct C_Metadata *", "data"⟩,
    ⟨"const struct C_MetadataOptions *", "options"⟩, ⟨"const char *", "lockName"⟩,
    ⟨"uint64_t *", "requestId"⟩],
   none⟩

def agora_rtm_storage_update_channel_metadata : FunDecl :=
  ⟨.storage, "void", "agora_rtm_storage_update_channel_metadata",
   [⟨"C_IRtmStorage *", "this_"⟩, ⟨"const char *", "channelName"⟩,
    ⟨"enum C_RTM_CHANNEL_TYPE", "channelType"⟩, ⟨"const struct C_Metadata *", "data"⟩,
    ⟨"const struct C_MetadataOptions *", "options"⟩, ⟨"const char *", "lockName"⟩,
    ⟨"uint64_t *", "requestId"⟩],
   none⟩

def agora_rtm_storage_remove_channel_metadata : FunDecl :=
  ⟨.storage, "void", "agora_rtm_storage_remove_channel_metadata",
   [⟨"C_IRtmStorage *", "this_"⟩, ⟨"const char *", "channelName"⟩,
    ⟨"enum C_RTM_CHANNEL_TYPE", "channelType"⟩, ⟨"const struct C_Metadata *", "data"⟩,
    ⟨"const struct C_MetadataOptions *", "options"⟩, ⟨"const char *", "lockName"⟩,
    ⟨"uint64_t *", "requestId"⟩],
   none⟩

def agora_rtm_storage_get_channel_metadata : FunDecl :=
  ⟨.storage, "void", "agora_rtm_storage_get_channel_metadata",
   [⟨"C_IRtmStorage *", "this_"⟩, ⟨"const char *", "channelName"⟩,
    ⟨"enum C_RTM_CHANNEL_TYPE", "channelType"⟩, ⟨"uint64_t *", "requestId"⟩],
   none⟩

def agora_rtm_storage_set_user_metadata : FunDecl :=
  ⟨.storage, "void", "agora_rtm_storage_set_user_metadata",
   [⟨"C_IRtmStorage *", "this_"⟩, ⟨"const char *", "userId"⟩,
    ⟨"const struct C_Metadata *", "data"⟩, ⟨"const struct C_MetadataOptions *", "options"⟩,
    ⟨"uint64_t *", "requestId"⟩],
   none⟩

def agora_rtm_storage_update_user_metadata : FunDecl :=
  ⟨.storage, "void", "agora_rtm_storage_update_user_metadata",
   [⟨"C_IRtmStorage *", "this_"⟩, ⟨"const char *", "userId"⟩,
    ⟨"const struct C_Metadata *", "data"⟩, ⟨"const struct C_MetadataOptions *", "options"⟩,
    ⟨"uint64_t *", "requestId"⟩],
   none⟩

def agora_rtm_storage_remove_user_metadata : FunDecl :=
  ⟨.storage, "void", "agora_rtm_storage_remove_user_metadata",
   [⟨"C_IRtmStorage *", "this_"⟩, ⟨"const char *", "userId"⟩,
    ⟨"const struct C_Metadata *", "data"⟩, ⟨"const struct C_MetadataOptions *", "options"⟩,
    ⟨"uint64_t *", "requestId"⟩],
   none⟩

def agora_rtm_storage_get_user_metadata : FunDecl :=
  ⟨.storage, "void", "agora_rtm_storage_get_user_metadata",
   [⟨"C_IRtmStorage *", "this_"⟩, ⟨"const char *", "userId"⟩, ⟨"uint64_t *", "requestId"⟩],
   none⟩

def agora_rtm_storage_subscribe_user_metadata : FunDecl :=
  ⟨.storage, "void", "agora_rtm_storage_subscribe_user_metadata",
   [⟨"C_IRtmStorage *", "this_"⟩, ⟨"const char *", "userId"⟩, ⟨"uint64_t *", "requestId"⟩],
   none⟩

def agora_rtm_storage_unsubscribe_user_metadata : FunDecl :=
  ⟨.storage, "void", "agora_rtm_storage_unsubscribe_user_metadata",
   [⟨"C_IRtmStorage *", "this_"⟩, ⟨"const char *", "userId"⟩, ⟨"uint64_t *", "requestId"⟩],
   none⟩

/-! #### C_IAgoraRtmLock.h, lines 24-84 -/

def agora_rtm_lock_set_lock : FunDecl :=
  ⟨.lock, "void", "agora_rtm_lock_set_lock",
   [⟨"C_IRtmLock *", "this_"⟩, ⟨"const char *", "channelName"⟩,
    ⟨"enum C_RTM_CHANNEL_TYPE", "channelType"⟩, ⟨"const char *", "lockName"⟩, ⟨"uint32_t", "ttl"⟩,
    ⟨"uint64_t *", "requestId"⟩],
   none⟩

def agora_rtm_lock_get_locks : FunDecl :=
  ⟨.lock, "void", "agora_rtm_lock_get_locks",
   [⟨"C_IRtmLock *", "this_"⟩, ⟨"const char *", "channelName"⟩,
    ⟨"enum C_RTM_CHANNEL_TYPE", "channelType"⟩, ⟨"uint64_t *", "requestId"⟩],
   none⟩

def agora_rtm_lock_remove_lock : FunDecl :=
  ⟨.lock, "void", "agora_rtm_lock_remove_lock",
   [⟨"C_IRtmLock *", "this_"⟩, ⟨"const char *", "channelName"⟩,
    ⟨"enum C_RTM_CHANNEL_TYPE", "channelType"⟩, ⟨"const char *", "lockName"⟩,
    ⟨"uint64_t *", "requestId"⟩],
   none⟩

def agora_rtm_lock_acquire_lock : FunDecl :=
  ⟨.lock, "void", "agora_rtm_lock_acquire_lock",
   [⟨"C_IRtmLock *", "this_"⟩, ⟨"const char *", "channelName"⟩,
    ⟨"enum C_RTM_CHANNEL_TYPE", "channelType"⟩, ⟨"const char *", "lockName"⟩, ⟨"bool", "retry"⟩,
    ⟨"uint64_t *", "requestId"⟩],
   none⟩

def agora_rtm_lock_release_lock : FunDecl :=
  ⟨.lock, "void", "agora_rtm_lock_release_lock",
   [⟨"C_IRtmLock *", "this_"⟩, ⟨"const char *", "channelName"⟩,
    ⟨"enum C_RTM_CHANNEL_TYPE", "channelType"⟩, ⟨"const char *", "lockName"⟩,
    ⟨"uint64_t *", "requestId"⟩],
   none⟩

def agora_rtm_lock_revoke_lock : FunDecl :=
  ⟨.lock, "void", "agora_rtm_lock_revoke_lock",
   [⟨"C_IRtmLock *", "this_"⟩, ⟨"const char *", "channelName"⟩,
    ⟨"enum C_RTM_CHANNEL_TYPE", "channelType"⟩, ⟨"const char *", "lockName"⟩,
    ⟨"const char *", "owner"⟩, ⟨"uint64_t *", "requestId"⟩],
   none⟩

/-! #### C_IAgoraRtmPresence.h, lines 23-110 -/

def agora_rtm_presence_who_now : FunDecl :=
  ⟨.presence, "int", "agora_rtm_presence_who_now",
   [⟨"C_IRtmPresence *", "this_"⟩, ⟨"const char *", "channelName"⟩,
    ⟨"enum C_RTM_CHANNEL_TYPE", "channelType"⟩, ⟨"const struct C_PresenceOptions *", "options"⟩,
    ⟨"uint64_t *", "requestId"⟩],
   some "- 0: Success. - < 0: Failure."⟩

def agora_rtm_presence_where_now : FunDecl :=
  ⟨.presence, "int", "agora_rtm_presence_where_now",
   [⟨"C_IRtmPresence *", "this_"⟩, ⟨"const char *", "userId"⟩, ⟨"uint64_t *", "requestId"⟩],
   some "- 0: Success. - < 0: Failure."⟩

def agora_rtm_presence_set_state : FunDecl :=
  ⟨.presence, "int", "agora_rtm_presence_set_state",
   [⟨"C_IRtmPresence *", "this_"⟩, ⟨"const char *", "channelName"⟩,
    ⟨"enum C_RTM_CHANNEL_TYPE", "channelType"⟩, ⟨"const struct C_StateItem *", "items"⟩,
    ⟨"size_t", "count"⟩, ⟨"uint64_t *", "requestId"⟩],
   some "- 0: Success. - < 0: Failure."⟩

def agora_rtm_presence_remove_state : FunDecl :=
  ⟨.presence, "int", "agora_rtm_presence_remove_state",
   [⟨"C_IRtmPresence *", "this_"⟩, ⟨"const char *", "channelName"⟩,
    ⟨"enum C_RTM_CHANNEL_TYPE", "channelType"⟩, ⟨"const char **", "keys"⟩, ⟨"size_t", "count"⟩,
    ⟨"uint64_t *", "requestId"⟩],
   some "- 0: Success. - < 0: Failure."⟩

def agora_rtm_presence_get_state : FunDecl :=
  ⟨.presence, "int", "agora_rtm_presence_get_state",
   [⟨"C_IRtmPresence *", "this_"⟩, ⟨"const char *", "channelName"⟩,
    ⟨"enum C_RTM_CHANNEL_TYPE", "channelType"⟩, ⟨"const char *", "userId"⟩,
    ⟨"uint64_t *", "requestId"⟩],
   some "- 0: Success. - < 0: Failure."⟩

def agora_rtm_presence_get_online_users : FunDecl :=
  ⟨.presence, "int", "agora_rtm_presence_get_online_users",
   [⟨"C_IRtmPresence *", "this_"⟩, ⟨"const char *", "channelName"⟩,
    ⟨"enum C_RTM_CHANNEL_TYPE", "channelType"⟩,
    ⟨"const struct C_GetOnlineUsersOptions *", "options"⟩, ⟨"uint64_t *", "requestId"⟩],
   some "- 0: Success. - < 0: Failure."⟩

def agora_rtm_presence_get_user_channels : FunDecl :=
  ⟨.presence, "int", "agora_rtm_presence_get_user_channels",
   [⟨"C_IRtmPresence *", "this_"⟩, ⟨"const char *", "userId"⟩, ⟨"uint64_t *", "requestId"⟩],
   some "- 0: Success. - < 0: Failure."⟩

/-! #### C_IAgoraRtmHistory.h, lines 25-36 -/

def agora_rtm_history_get_messages : FunDecl :=
  ⟨.history, "int", "agora_rtm_history_get_messages",
   [⟨"C_IRtmHistory *", "this_"⟩, ⟨"const char *", "channelName"⟩,
    ⟨"enum C_RTM_CHANNEL_TYPE", "channelType"⟩, ⟨"const C_GetHistoryMessagesOptions *", "options"⟩,
    ⟨"uint64_t *", "requestId"⟩],
   some "- 0: Success. - < 0: Failure."⟩

/-- Every function the six headers declare for their handle types, in header order; the
`_New` and `_Delete` functions of the value structs are not among them. -/
def declaredFunctions : List FunDecl :=
  [agora_rtm_client_release, agora_rtm_client_login, agora_rtm_client_logout,
   agora_rtm_client_get_storage, agora_rtm_client_get_lock, agora_rtm_client_get_presence,
   agora_rtm_client_get_history, agora_rtm_client_renew_token, agora_rtm_client_publish,
   agora_rtm_client_subscribe, agora_rtm_client_unsubscribe,
   agora_rtm_client_create_stream_channel, agora_rtm_client_set_parameters,
   agora_rtm_client_create, agora_rtm_client_get_error_reason, agora_rtm_client_get_version,
   agora_rtm_stream_channel_join, agora_rtm_stream_channel_renew_token,
   agora_rtm_stream_channel_leave, agora_rtm_stream_channel_get_channel_name,
   agora_rtm_stream_channel_join_topic, agora_rtm_stream_channel_publish_topic_message,
   agora_rtm_stream_channel_leave_topic, agora_rtm_stream_channel_subscribe_topic,
   agora_rtm_stream_channel_unsubscribe_topic,
   agora_rtm_stream_channel_get_subscribed_user_list, agora_rtm_stream_channel_release,
   agora_rtm_storage_set_channel_metadata, agora_rtm_storage_update_channel_metadata,
   agora_rtm_storage_remove_channel_metadata, agora_rtm_storage_get_channel_metadata,
   agora_rtm_storage_set_user_metadata, agora_rtm_storage_update_user_metadata,
   agora_rtm_storage_remove_user_metadata, agora_rtm_storage_get_user_metadata,
   agora_rtm_storage_subscribe_user_metadata, agora_rtm_storage_unsubscribe_user_metadata,
   agora_rtm_lock_set_lock, agora_rtm_lock_get_locks, agora_rtm_lock_remove_lock,
   agora_rtm_lock_acquire_lock, agora_rtm_lock_release_lock, agora_rtm_lock_revoke_lock,
   agora_rtm_presence_who_now, agora_rtm_presence_where_now, agora_rtm_presence_set_state,
   agora_rtm_presence_remove_state, agora_rtm_presence_get_state,
   agora_rtm_presence_get_online_users, agora_rtm_presence_get_user_channels,
   agora_rtm_history_get_messages]

/-- The C++ interface method behind `agora_rtm_history_get_messages`
(IAgoraRtmHistory.h, lines 21-32): `virtual void getMessages(...) = 0`, whose doc comment
carries the same `@return` clause as the C function. -/
def IRtmHistory_getMessages : FunDecl :=
  ⟨.history, "void", "getMessages",
   [⟨"const char *", "channelName"⟩, ⟨"RTM_CHANNEL_TYPE", "channelType"⟩,
    ⟨"const GetHistoryMessagesOptions &", "options"⟩, ⟨"uint64_t &", "requestId"⟩],
   some "- 0: Success. - < 0: Failure."⟩

/-! ### The other value structs, and the `_New` and `_Delete` functions

`C_RtmConfig` (C_IAgoraRtmClient.h, lines 116-205), the option structs of
C_IAgoraStreamChannel.h (lines 58-127), `C_MetadataOptions` (C_IAgoraRtmStorage.h,
lines 20-30) and the query options of C_IAgoraRtmHistory.h (lines 11-16). -/

def C_RtmConfig : StructDecl :=
  ⟨"C_RtmConfig",
   [⟨"const char *", "appId"⟩, ⟨"const char *", "userId"⟩, ⟨"enum C_RTM_AREA_CODE", "areaCode"⟩,
    ⟨"enum C_RTM_PROTOCOL_TYPE", "protocolType"⟩, ⟨"uint32_t", "presenceTimeout"⟩,
    ⟨"uint32_t", "heartbeatInterval"⟩, ⟨"void *", "context"⟩, ⟨"bool", "useStringUserId"⟩,
    ⟨"bool", "multipath"⟩, ⟨"bool", "ispPolicyEnabled"⟩,
    ⟨"struct C_IRtmEventHandler *", "eventHandler"⟩, ⟨"struct C_RtmLogConfig", "logConfig"⟩,
    ⟨"struct C_RtmProxyConfig", "proxyConfig"⟩,
    ⟨"struct C_RtmEncryptionConfig", "encryptionConfig"⟩,
    ⟨"struct C_RtmPrivateConfig", "privateConfig"⟩]⟩

def C_JoinChannelOptions : StructDecl :=
  ⟨"C_JoinChannelOptions",
   [⟨"const char *", "token"⟩, ⟨"bool", "withMetadata"⟩, ⟨"bool", "withPresence"⟩,
    ⟨"bool", "withLock"⟩, ⟨"bool", "beQuiet"⟩]⟩

def C_JoinTopicOptions : StructDecl :=
  ⟨"C_JoinTopicOptions",
   [⟨"enum C_RTM_MESSAGE_QOS", "qos"⟩, ⟨"enum C_RTM_MESSAGE_PRIORITY", "priority"⟩,
    ⟨"const char *", "meta"⟩, ⟨"bool", "syncWithMedia"⟩]⟩

def C_TopicOptions : StructDecl :=
  ⟨"C_TopicOptions",
   [⟨"const char **", "users"⟩, ⟨"size_t", "userCount"⟩]⟩

def C_MetadataOptions : StructDecl :=
  ⟨"C_MetadataOptions",
   [⟨"bool", "recordTs"⟩, ⟨"bool", "recordUserId"⟩]⟩

/-- Declared as `typedef struct { ... } C_GetHistoryMessagesOptions;` (C_IAgoraRtmHistory.h,
lines 11-16), the one struct of these headers written that way. -/
def C_GetHistoryMessagesOptions : StructDecl :=
  ⟨"C_GetHistoryMessagesOptions",
   [⟨"int64_t", "start"⟩, ⟨"int64_t", "end"⟩, ⟨"int", "count"⟩]⟩

/-- The value structs the six headers declare, in header order (client, stream channel,
storage, history). -/
def valueStructs : List StructDecl :=
  [C_RtmConfig, C_LinkStateEvent, C_MessageEvent, C_IntervalInfo, C_SnapshotInfo,
   C_PresenceEvent, C_TopicEvent, C_LockEvent, C_StorageEvent, C_JoinChannelOptions,
   C_JoinTopicOptions, C_TopicOptions, C_MetadataOptions, C_MetadataItem, C_Metadata,
   C_GetHistoryMessagesOptions]

def C_IRtmEventHandler_New : FunDecl :=
  ⟨.client, "struct C_IRtmEventHandler *", "C_IRtmEventHandler_New", [⟨"void *", "userData"⟩],
   some "Pointer to the created event handler, or NULL on failure"⟩

def C_IRtmEventHandler_Delete : FunDecl :=
  ⟨.client, "void", "C_IRtmEventHandler_Delete", [⟨"struct C_IRtmEventHandler *", "this_"⟩], none⟩

def C_RtmConfig_New : FunDecl :=
  ⟨.client, "struct C_RtmConfig *", "C_RtmConfig_New", [], none⟩

def C_RtmConfig_Delete : FunDecl :=
  ⟨.client, "void", "C_RtmConfig_Delete", [⟨"struct C_RtmConfig *", "this_"⟩], none⟩

def C_LinkStateEvent_New : FunDecl :=
  ⟨.client, "struct C_LinkStateEvent *", "C_LinkStateEvent_New", [], none⟩

def C_LinkStateEvent_Delete : FunDecl :=
  ⟨.client, "void", "C_LinkStateEvent_Delete", [⟨"struct C_LinkStateEvent *", "this_"⟩], none⟩

def C_MessageEvent_New : FunDecl :=
  ⟨.client, "struct C_MessageEvent *", "C_MessageEvent_New", [], none⟩

def C_MessageEvent_Delete : FunDecl :=
  ⟨.client, "void", "C_MessageEvent_Delete", [⟨"struct C_MessageEvent *", "this_"⟩], none⟩

def C_IntervalInfo_New : FunDecl :=
  ⟨.client, "struct C_IntervalInfo *", "C_IntervalInfo_New", [], none⟩

def C_IntervalInfo_Delete : FunDecl :=
  ⟨.client, "void", "C_IntervalInfo_Delete", [⟨"struct C_IntervalInfo *", "this_"⟩], none⟩

def C_SnapshotInfo_New : FunDecl :=
  ⟨.client, "struct C_SnapshotInfo *", "C_SnapshotInfo_New", [], none⟩

def C_SnapshotInfo_Delete : FunDecl :=
  ⟨.client, "void", "C_SnapshotInfo_Delete", [⟨"struct C_SnapshotInfo *", "this_"⟩], none⟩

def C_PresenceEvent_New : FunDecl :=
  ⟨.client, "struct C_PresenceEvent *", "C_PresenceEvent_New", [], none⟩

def C_PresenceEvent_Delete : FunDecl :=
  ⟨.client, "void", "C_PresenceEvent_Delete", [⟨"struct C_PresenceEvent *", "this_"⟩], none⟩

def C_TopicEvent_New : FunDecl :=
  ⟨.client, "struct C_TopicEvent *", "C_TopicEvent_New", [], none⟩

def C_TopicEvent_Delete : FunDecl :=
  ⟨.client, "void", "C_TopicEvent_Delete", [⟨"struct C_TopicEvent *", "this_"⟩], none⟩

def C_LockEvent_New : FunDecl :=
  ⟨.client, "struct C_LockEvent *", "C_LockEvent_New", [], none⟩

def C_LockEvent_Delete : FunDecl :=
  ⟨.client, "void", "C_LockEvent_Delete", [⟨"struct C_LockEvent *", "this_"⟩], none⟩

def C_StorageEvent_New : FunDecl :=
  ⟨.client, "struct C_StorageEvent *", "C_StorageEvent_New", [], none⟩

def C_StorageEvent_Delete : FunDecl :=
  ⟨.client, "void", "C_StorageEvent_Delete", [⟨"struct C_StorageEvent *", "this_"⟩], none⟩

def C_JoinChannelOptions_New : FunDecl :=
  ⟨.streamChannel, "struct C_JoinChannelOptions *", "C_JoinChannelOptions_New", [], none⟩

def C_JoinChannelOptions_Delete : FunDecl :=
  ⟨.streamChannel, "void", "C_JoinChannelOptions_Delete", [⟨"struct C_JoinChannelOptions *", "this_"⟩], none⟩

def C_JoinTopicOptions_New : FunDecl :=
  ⟨.streamChannel, "struct C_JoinTopicOptions *", "C_JoinTopicOptions_New", [], none⟩

def C_JoinTopicOptions_Delete : FunDecl :=
  ⟨.streamChannel, "void", "C_JoinTopicOptions_Delete", [⟨"struct C_JoinTopicOptions *", "this_"⟩], none⟩

def C_TopicOptions_New : FunDecl :=
  ⟨.streamChannel, "struct C_TopicOptions *", "C_TopicOptions_New", [], none⟩

def C_TopicOptions_Delete : FunDecl :=
  ⟨.streamChannel, "void", "C_TopicOptions_Delete", [⟨"struct C_TopicOptions *", "this_"⟩], none⟩

def C_MetadataOptions_New : FunDecl :=
  ⟨.storage, "struct C_MetadataOptions *", "C_MetadataOptions_New", [], none⟩

def C_MetadataOptions_Delete : FunDecl :=
  ⟨.storage, "void", "C_MetadataOptions_Delete", [⟨"struct C_MetadataOptions *", "this_"⟩], none⟩

def C_MetadataItem_New : FunDecl :=
  ⟨.storage, "struct C_MetadataItem *", "C_MetadataItem_New", [], none⟩

def C_MetadataItem_Delete : FunDecl :=
  ⟨.storage, "void", "C_MetadataItem_Delete", [⟨"struct C_MetadataItem *", "this_"⟩], none⟩

def C_Metadata_New : FunDecl :=
  ⟨.storage, "struct C_Metadata *", "C_Metadata_New", [], none⟩

def C_Metadata_Delete : FunDecl :=
  ⟨.storage, "void", "C_Metadata_Delete", [⟨"struct C_Metadata *", "this_"⟩], none⟩

/-- Every `_New` and `_Delete` function the six headers declare, in header order. -/
def lifecycleFunctions : List FunDecl :=
  [C_IRtmEventHandler_New, C_IRtmEventHandler_Delete, C_RtmConfig_New, C_RtmConfig_Delete,
   C_LinkStateEvent_New, C_LinkStateEvent_Delete, C_MessageEvent_New, C_MessageEvent_Delete,
   C_IntervalInfo_New, C_IntervalInfo_Delete, C_SnapshotInfo_New, C_SnapshotInfo_Delete,
   C_PresenceEvent_New, C_PresenceEvent_Delete, C_TopicEvent_New, C_TopicEvent_Delete,
   C_LockEvent_New, C_LockEvent_Delete, C_StorageEvent_New, C_StorageEvent_Delete,
   C_JoinChannelOptions_New, C_JoinChannelOptions_Delete, C_JoinTopicOptions_New,
   C_JoinTopicOptions_Delete, C_TopicOptions_New, C_TopicOptions_Delete, C_MetadataOptions_New,
   C_MetadataOptions_Delete, C_MetadataItem_New, C_MetadataItem_Delete, C_Metadata_New,
   C_Metadata_Delete]

/-- Whether a function `<Struct>_New` is declared for the struct: no parameters, and a
pointer to the struct returned. -/
def hasNew (st : StructDecl) : Bool :=
  lifecycleFunctions.any fun f =>
    f.name == st.name ++ "_New" && f.ret == "struct " ++ st.name ++ " *" && f.params.isEmpty

/-- Whether a function `<Struct>_Delete` is declared for the struct: it takes a pointer to the
struct and returns nothing. -/
def hasDelete (st : StructDecl) : Bool :=
  lifecycleFunctions.any fun f =>
    f.name == st.name ++ "_Delete" && f.ret == "void" &&
      f.params == [⟨"struct " ++ st.name ++ " *", "this_"⟩]

/-! ### Reading the declarations -/

/-- The out-parameter through which a function hands back the request id. -/
def requestIdOut : Param := ⟨"uint64_t *", "requestId"⟩

/-- The request id as a callback receives it. -/
def requestIdIn : Param := ⟨"const uint64_t", "requestId"⟩

/-- The error code as a callback receives it. -/
def errorCodeIn : Param := ⟨"enum C_RTM_ERROR_CODE", "errorCode"⟩

/-- The `@return` clause of the functions documented to return 0 or a negative value. -/
def zeroOrNegativeDoc : String := "- 0: Success. - < 0: Failure."

/-- A submission function: one that hands back a request id through an out-parameter. -/
def FunDecl.isSubmission (f : FunDecl) : Bool := f.params.contains requestIdOut

/-- The submission functions among the declared ones. -/
def submissionFunctions : List FunDecl := declaredFunctions.filter FunDecl.isSubmission

/-- A result slot: a member named `on...Result`. -/
def SlotDecl.isResult (s : SlotDecl) : Bool :=
  "on".toList.isPrefixOf s.name.toList && "Result".toList.isSuffixOf s.name.toList

/-- An event slot: a member named `on...Event`. -/
def SlotDecl.isEvent (s : SlotDecl) : Bool :=
  "on".toList.isPrefixOf s.name.toList && "Event".toList.isSuffixOf s.name.toList

/-- The result slots of the handler table. -/
def resultSlots : List SlotDecl := C_IRtmEventHandler.filter SlotDecl.isResult

/-- Whether a C type names the struct `st`, by value or through a pointer. -/
def refersTo (ty : String) (st : StructDecl) : Bool :=
  [ "struct " ++ st.name, "struct " ++ st.name ++ " *",
    "const struct " ++ st.name, "const struct " ++ st.name ++ " *" ].contains ty

/-- Whether a slot takes the struct `st` among its parameters. -/
def SlotDecl.takesStruct (s : SlotDecl) (st : StructDecl) : Bool :=
  s.params.any fun p => refersTo p.ty st

/-- Whether a list of parameters or fields has one named `n`. -/
def hasName (ps : List Param) (n : String) : Bool := ps.any fun p => p.name == n

/-- The six kinds of unsolicited event. -/
inductive EventKind
  | message | presence | topic | lock | storage | linkState
deriving DecidableEq, Repr

/-- The struct that carries an event of each kind. -/
def EventKind.struct : EventKind → StructDecl
  | .message => C_MessageEvent
  | .presence => C_PresenceEvent
  | .topic => C_TopicEvent
  | .lock => C_LockEvent
  | .storage => C_StorageEvent
  | .linkState => C_LinkStateEvent

/-- The handler member named after each kind of event. -/
def EventKind.slot : EventKind → SlotDecl
  | .message => onMessageEvent
  | .presence => onPresenceEvent
  | .topic => onTopicEvent
  | .lock => onLockEvent
  | .storage => onStorageEvent
  | .linkState => onLinkStateEvent

/-- The structs declared in these headers that an event struct holds, by value or pointer. -/
def EventKind.nested : EventKind → List StructDecl
  | .presence => [C_IntervalInfo, C_SnapshotInfo]
  | .storage => [C_Metadata, C_MetadataItem]
  | _ => []

/-- The result slot that answers each submission function.  The headers pair them by name
only: the function's name without its `agora_rtm_<handle>_` part, in camel case, between
`on` and `Result`; the presence state functions and the history query carry the handle's
name as well (`onPresenceSetStateResult`, `onGetHistoryMessagesResult`). -/
def resultSlotTable : List (FunDecl × SlotDecl) :=
  [(agora_rtm_client_login, onLoginResult),
   (agora_rtm_client_logout, onLogoutResult),
   (agora_rtm_client_renew_token, onRenewTokenResult),
   (agora_rtm_client_publish, onPublishResult),
   (agora_rtm_client_subscribe, onSubscribeResult),
   (agora_rtm_client_unsubscribe, onUnsubscribeResult),
   (agora_rtm_stream_channel_join, onJoinResult),
   (agora_rtm_stream_channel_renew_token, onRenewTokenResult),
   (agora_rtm_stream_channel_leave, onLeaveResult),
   (agora_rtm_stream_channel_join_topic, onJoinTopicResult),
   (agora_rtm_stream_channel_publish_topic_message, onPublishTopicMessageResult),
   (agora_rtm_stream_channel_leave_topic, onLeaveTopicResult),
   (agora_rtm_stream_channel_subscribe_topic, onSubscribeTopicResult),
   (agora_rtm_stream_channel_unsubscribe_topic, onUnsubscribeTopicResult),
   (agora_rtm_stream_channel_get_subscribed_user_list, onGetSubscribedUserListResult),
   (agora_rtm_storage_set_channel_metadata, onSetChannelMetadataResult),
   (agora_rtm_storage_update_channel_metadata, onUpdateChannelMetadataResult),
   (agora_rtm_storage_remove_channel_metadata, onRemoveChannelMetadataResult),
   (agora_rtm_storage_get_channel_metadata, onGetChannelMetadataResult),
   (agora_rtm_storage_set_user_metadata, onSetUserMetadataResult),
   (agora_rtm_storage_update_user_metadata, onUpdateUserMetadataResult),
   (agora_rtm_storage_remove_user_metadata, onRemoveUserMetadataResult),
   (agora_rtm_storage_get_user_metadata, onGetUserMetadataResult),
   (agora_rtm_storage_subscribe_user_metadata, onSubscribeUserMetadataResult),
   (agora_rtm_storage_unsubscribe_user_metadata, onUnsubscribeUserMetadataResult),
   (agora_rtm_lock_set_lock, onSetLockResult),
   (agora_rtm_lock_get_locks, onGetLocksResult),
   (agora_rtm_lock_remove_lock, onRemoveLockResult),
   (agora_rtm_lock_acquire_lock, onAcquireLockResult),
   (agora_rtm_lock_release_lock, onReleaseLockResult),
   (agora_rtm_lock_revoke_lock, onRevokeLockResult),
   (agora_rtm_presence_who_now, onWhoNowResult),
   (agora_rtm_presence_where_now, onWhereNowResult),
   (agora_rtm_presence_set_state, onPresenceSetStateResult),
   (agora_rtm_presence_remove_state, onPresenceRemoveStateResult),
   (agora_rtm_presence_get_state, onPresenceGetStateResult),
   (agora_rtm_presence_get_online_users, onGetOnlineUsersResult),
   (agora_rtm_presence_get_user_channels, onGetUserChannelsResult),
   (agora_rtm_history_get_messages, onGetHistoryMessagesResult)]

/-- The result slot of a function, looked up by the function's name. -/
def resultSlot (f : FunDecl) : Option SlotDecl :=
  (resultSlotTable.find? fun p => p.1.name == f.name).map Prod.snd

/-! ## The request correlator

The headers declare the submission functions and the result slots; the engine that hands out
the request ids and fires the slots is not part of them.  The definitions of this section
follow the specification's words for that engine (its sections 4.1 and 8).  Request ids are
natural numbers that start at 1 and grow by one per accepted submission, as in the
specification's example session (`login -> 1`, `logout -> 2`); the `uint64_t` out-parameter
holds them exactly as long as fewer than `2 ^ 64` requests have been accepted.
-/

/-- Modelled from the spec: the state of a client handle.  What `agora_rtm_client_create` and
`agora_rtm_client_release` do to a handle is in the engine; the specification tells a live
handle from one that is invalid or already released. -/
inductive HandleState
  | invalid | live | released
deriving DecidableEq, Repr

/-- Modelled from the spec: the one synchronous failure of a submission, the invocation
error.  The engine's error codes (`C_AgoraRtmBase.h`) are not in these headers. -/
inductive InvocationError
  | invocationError
deriving DecidableEq, Repr

/-- Modelled from the spec: a request, the submission function that made it and the request
id that the submission handed back. -/
structure Request where
  requestId : Nat
  operation : FunDecl
deriving DecidableEq, Repr

/-- Modelled from the spec: one terminal callback, fired on the result slot of `operation`
with the request id and an error code (`0` is success). -/
structure Callback where
  operation : FunDecl
  requestId : Nat
  errorCode : Int
deriving DecidableEq, Repr

/-- The request a callback answers. -/
def Callback.request (cb : Callback) : Request := ⟨cb.requestId, cb.operation⟩

/-- The slot of the handler table on which a callback is fired. -/
def Callback.slot (cb : Callback) : Option SlotDecl := resultSlot cb.operation

/-- Modelled from the spec: the request/response correlator of one client session (the
engine's bookkeeping behind `uint64_t *requestId` is not in these headers).
`submitted` lists the accepted requests, oldest first; `inflight` those not answered yet;
`delivered` the terminal callbacks fired so far, oldest first. -/
structure Correlator where
  handle : HandleState
  nextRequestId : Nat
  submitted : List Request
  inflight : List Request
  delivered : List Callback
deriving DecidableEq, Repr

/-- Modelled from the spec: a fresh session on a live handle; the first request id is 1. -/
def Correlator.create : Correlator := ⟨.live, 1, [], [], []⟩

/-- The request ids allocated so far. -/
def Correlator.allocated (c : Correlator) : List Nat := c.submitted.map Request.requestId

/-- Modelled from the spec: `submit(operation, params) -> requestId`, the step the
correlator takes for a call whose arguments the engine has accepted.  On a live handle the
next request id is allocated and handed back and the request is in flight; on an invalid or
released handle the step fails with the invocation error and nothing changes.  The check of
the arguments and what the C function reports to its caller are in `invoke` below. -/
def submit (c : Correlator) (op : FunDecl) : Except InvocationError Nat × Correlator :=
  match c.handle with
  | .live =>
    (.ok c.nextRequestId,
     { c with
       nextRequestId := c.nextRequestId + 1
       submitted := c.submitted ++ [⟨c.nextRequestId, op⟩]
       inflight := c.inflight ++ [⟨c.nextRequestId, op⟩] })
  | .invalid => (.error .invocationError, c)
  | .released => (.error .invocationError, c)

/-- Modelled from the spec: the transport answers the request `requestId` with `errorCode`.
The terminal callback of the request is fired and the request is no longer in flight; an
answer for an id that is not in flight fires nothing.  Release of the handle does not cancel
the requests in flight (the specification leaves that policy open and promises a callback
for every request). -/
def complete (c : Correlator) (requestId : Nat) (errorCode : Int) : Correlator :=
  match c.inflight.find? (fun r => r.requestId == requestId) with
  | none => c
  | some r =>
    { c with
      inflight := c.inflight.filter (fun r => r.requestId != requestId)
      delivered := c.delivered ++ [⟨r.operation, requestId, errorCode⟩] }

/-- Modelled from the spec: `agora_rtm_client_release` on the session: a live handle becomes
released, any other handle stays as it is. -/
def release (c : Correlator) : Correlator :=
  match c.handle with
  | .live => { c with handle := .released }
  | _ => c

/-- Modelled from the spec: what can happen in a session (the engine's loop is not in these
headers): the application submits or releases, the transport answers a request. -/
inductive Step
  | submit (op : FunDecl)
  | complete (requestId : Nat) (errorCode : Int)
  | release
deriving DecidableEq, Repr

/-- Modelled from the spec: one step of a session. -/
def step (c : Correlator) : Step → Correlator
  | .submit op => (submit c op).2
  | .complete requestId errorCode => complete c requestId errorCode
  | .release => release c

/-- Modelled from the spec: a session, its steps taken in order. -/
def run (c : Correlator) (steps : List Step) : Correlator := steps.foldl step c

/-- Modelled from the spec: the requests the submissions of a session handed back, in
order: for each accepted submission the id it returned and the function that was called. -/
def returned (c : Correlator) : List Step → List Request
  | [] => []
  | .submit op :: rest =>
    match (submit c op).1 with
    | .ok requestId => ⟨requestId, op⟩ :: returned (submit c op).2 rest
    | .error _ => returned (submit c op).2 rest
  | .complete requestId errorCode :: rest => returned (complete c requestId errorCode) rest
  | .release :: rest => returned (release c) rest

/-- The request ids the submissions of a session handed back, in order. -/
def returnedIds (c : Correlator) (steps : List Step) : List Nat :=
  (returned c steps).map Request.requestId

/-- Modelled from the spec: a transport that answers every request in flight, oldest first,
with the error code `outcome` gives for its id ("a mock transport that completes every
request exactly once"). -/
def drain (c : Correlator) (outcome : Nat → Int) : Correlator :=
  (c.inflight.map Request.requestId).foldl (fun c id => complete c id (outcome id)) c

/-- The request ids of the callbacks delivered so far. -/
def Correlator.deliveredIds (c : Correlator) : List Nat := c.delivered.map Callback.requestId

/-- A session used to run the definitions: a publish and a lock acquisition are submitted, the
acquisition is answered twice with an error code, the handle is released, and a logout is
attempted on the released handle. -/
def sampleSession : List Step :=
  [.submit agora_rtm_client_publish, .submit agora_rtm_lock_acquire_lock, .complete 2 (-1),
   .complete 2 (-1), .release, .submit agora_rtm_client_logout]

/-- The bookkeeping invariant of a session: allocated ids are below the next id and strictly
increasing; what is in flight or delivered was submitted; every submitted request is in
flight or answered; no id is answered twice, and none both answered and in flight. -/
structure Inv (c : Correlator) : Prop where
  below : ∀ r ∈ c.submitted, r.requestId < c.nextRequestId
  increasing : c.allocated.Pairwise (· < ·)
  inflight_sub : ∀ r ∈ c.inflight, r ∈ c.submitted
  delivered_sub : ∀ cb ∈ c.delivered, cb.request ∈ c.submitted
  accounted : ∀ r ∈ c.submitted, r ∈ c.inflight ∨ ∃ cb ∈ c.delivered, cb.request = r
  once : c.deliveredIds.Nodup
  apart : ∀ r ∈ c.inflight, r.requestId ∉ c.deliveredIds

/-! ## The event dispatcher

The handler table is declared in the headers; the code that calls its members is not.  The
definitions of this section follow the specification's words for it (its section 4.2). -/

/-- Modelled from the spec: what the engine hands to the dispatcher (the dispatching code is
not in these headers): the terminal callback of a request, or an unsolicited event of one of
the six kinds. -/
inductive Delivery
  | result (cb : Callback)
  | event (kind : EventKind)
deriving DecidableEq, Repr

/-- The member of the handler table a delivery is meant for. -/
def Delivery.slot : Delivery → Option SlotDecl
  | .result cb => cb.slot
  | .event kind => some kind.slot

/-- Modelled from the spec: the handler table an application registers, as the list of its
members that hold a function; every other member is left unbound (what
`C_IRtmEventHandler_New` puts into the members is in the engine). -/
structure Handler where
  bound : List SlotDecl
deriving DecidableEq, Repr

/-- Modelled from the spec: dispatch of one delivery.  The result is the call made into the
application, if any: a delivery for a bound member is handed to it, a delivery for an unbound
member is dropped.  The members return `void`, so a call is all a dispatch can produce. -/
def dispatch (h : Handler) (d : Delivery) : Option Delivery :=
  match d.slot with
  | some s => if s ∈ h.bound then some d else none
  | none => none

/-- Modelled from the spec: the calls made into the application for a sequence of
deliveries, in order. -/
def dispatchAll (h : Handler) (ds : List Delivery) : List Delivery := ds.filterMap (dispatch h)

/-! ## Metadata and locks

The headers declare the metadata structs (`C_Metadata`, `C_MetadataItem`,
`C_MetadataOptions`) and the storage and lock functions; the store and the lock arbitration
are on the server.  The definitions of this section follow the specification's words for
them (its sections 3, 4.3 and 8).  Revisions are integers that are not cut to the 64 bits of
`int64_t`: the major revision grows by one per accepted write, so it stays in range for fewer
than `2 ^ 63` writes. -/

/-- Modelled from the spec: a metadata item held by the store, with the fields of
`struct C_MetadataItem`. -/
structure MetadataItem where
  key : String
  value : String
  authorUserId : String
  revision : Int
  updateTs : Int
deriving DecidableEq, Repr

/-- Modelled from the spec: a metadata container, with the fields of `struct C_Metadata`
(`itemCount` is the length of `items`). -/
structure Metadata where
  majorRevision : Int
  items : List MetadataItem
deriving DecidableEq, Repr

/-- Modelled from the spec: the options of a write, with the fields of
`struct C_MetadataOptions`. -/
structure MetadataOptions where
  recordTs : Bool
  recordUserId : Bool
deriving DecidableEq, Repr

/-- Modelled from the spec: a named lock of a channel with its owner (`none` while nobody
holds it) and its time to live, the parameters of `agora_rtm_lock_set_lock` and
`agora_rtm_lock_revoke_lock`; `struct C_LockDetail` is not in these headers. -/
structure Lock where
  lockName : String
  owner : Option String
  ttl : Nat
deriving DecidableEq, Repr

/-- The three metadata writes. -/
inductive WriteKind
  | set | update | remove
deriving DecidableEq, Repr

/-- The channel function that submits each kind of write. -/
def WriteKind.function : WriteKind → FunDecl
  | .set => agora_rtm_storage_set_channel_metadata
  | .update => agora_rtm_storage_update_channel_metadata
  | .remove => agora_rtm_storage_remove_channel_metadata

/-- Modelled from the spec: the errors of a metadata write; the one the specification names
is the lock-ownership error.  The codes of `enum C_RTM_ERROR_CODE` are not in these headers. -/
inductive WriteError
  | lockNotOwned
deriving DecidableEq, Repr

/-- Modelled from the spec: a metadata write as the store receives it: the user who makes
it, the kind, the `data`, `options` and `lockName` arguments of the function (`lockName` is
`none` for a write that is not scoped with a lock), and the server's time. Of `data` the
store reads the keys and the values of the items. -/
structure WriteRequest where
  caller : String
  kind : WriteKind
  data : Metadata
  options : MetadataOptions
  lockName : Option String
  now : Int
deriving DecidableEq, Repr

/-- The item stored under a key, if any. -/
def Metadata.lookup (m : Metadata) (key : String) : Option MetadataItem :=
  m.items.find? fun item => item.key == key

/-- Whether a container lists a key. -/
def Metadata.lists (m : Metadata) (key : String) : Bool :=
  m.items.any fun item => item.key == key

/-- The keys of a container, in order. -/
def Metadata.keys (m : Metadata) : List String := m.items.map MetadataItem.key

/-- Whether the named lock exists and is held by the user. -/
def heldBy (locks : List Lock) (lockName caller : String) : Bool :=
  locks.any fun l => l.lockName == lockName && l.owner == some caller

/-- Modelled from the spec: the item a write stores: the key and value of the written item,
the revision of the write, and author and timestamp as the options ask (kept from the item
it replaces, if any, otherwise). -/
def written (req : WriteRequest) (revision : Int) (old : Option MetadataItem)
    (new : MetadataItem) : MetadataItem where
  key := new.key
  value := new.value
  authorUserId :=
    if req.options.recordUserId then req.caller
    else match old with
      | some o => o.authorUserId
      | none => ""
  revision := revision
  updateTs :=
    if req.options.recordTs then req.now
    else match old with
      | some o => o.updateTs
      | none => 0

/-- Modelled from the spec: what an update makes of an item already stored: an item whose
key the update lists is rewritten with the new major revision, any other item stays as it
is. -/
def rewritten (m : Metadata) (req : WriteRequest) (o : MetadataItem) : MetadataItem :=
  match req.data.lookup o.key with
  | some n => written req (m.majorRevision + 1) (some o) n
  | none => o

/-- Modelled from the spec: the effect of an accepted write.  The major revision grows by
one and every item the write stores takes the new major revision as its revision, so that a
key that is removed and written again does not fall back to an earlier revision.  `set`
replaces the items by the written ones; `update` rewrites the listed keys that exist, adds
the listed keys that do not, and keeps every other item as it is; `remove` deletes the listed
keys. -/
def Metadata.apply (m : Metadata) (req : WriteRequest) : Metadata :=
  match req.kind with
  | .set =>
    { majorRevision := m.majorRevision + 1
      items := req.data.items.map fun n => written req (m.majorRevision + 1) (m.lookup n.key) n }
  | .update =>
    { majorRevision := m.majorRevision + 1
      items :=
        m.items.map (rewritten m req) ++
        (req.data.items.filter fun n => !m.lists n.key).map fun n =>
          written req (m.majorRevision + 1) none n }
  | .remove =>
    { majorRevision := m.majorRevision + 1
      items := m.items.filter fun o => !req.data.lists o.key }

/-- Modelled from the spec: a metadata container on the server together with the metadata
its storage events have carried so far (`C_StorageEvent.data`), oldest first. -/
structure Storage where
  metadata : Metadata
  events : List Metadata
deriving DecidableEq, Repr

/-- Modelled from the spec: a container before its first write. -/
def Storage.empty : Storage := ⟨⟨0, []⟩, []⟩

/-- Whether a write may go ahead under the locks of the channel: a write that names a lock
needs the caller to hold it. -/
def permitted (locks : List Lock) (req : WriteRequest) : Bool :=
  match req.lockName with
  | some name => heldBy locks name req.caller
  | none => true

/-- Modelled from the spec: a write arrives at the store.  A write scoped with a lock the
caller does not hold fails with the lock-ownership error and changes nothing; any other
write is applied and a storage event carries the new metadata. -/
def Storage.write (s : Storage) (locks : List Lock) (req : WriteRequest) :
    Except WriteError Unit × Storage :=
  if permitted locks req then
    (.ok (), { metadata := s.metadata.apply req, events := s.events ++ [s.metadata.apply req] })
  else (.error .lockNotOwned, s)

/-- Modelled from the spec: a sequence of writes, each arriving under the locks the channel
has at that moment (how the lock functions change them is left open here). -/
def Storage.run (s : Storage) (writes : List (List Lock × WriteRequest)) : Storage :=
  writes.foldl (fun s w => (s.write w.1 w.2).2) s

/-- A container is well formed when no item has a revision above the major revision and
items stored under one key carry one revision. -/
def Metadata.WellFormed (m : Metadata) : Prop :=
  (∀ item ∈ m.items, item.revision ≤ m.majorRevision) ∧
    ∀ item ∈ m.items, ∀ item' ∈ m.items, item.key = item'.key → item.revision = item'.revision

instance (m : Metadata) : Decidable m.WellFormed := by
  unfold Metadata.WellFormed
  infer_instance

/-- One container is not ahead of another: its major revision is not larger, and no key has
a larger revision in it. -/
def Metadata.NotAhead (m m' : Metadata) : Prop :=
  m.majorRevision ≤ m'.majorRevision ∧
    ∀ item ∈ m.items, ∀ item' ∈ m'.items, item.key = item'.key → item.revision ≤ item'.revision

/-- Modelled from the spec: the outcome of a lock acquisition: the lock is acquired, the
acquisition fails with the lock-contention error, or (with `retry`) it stays pending. -/
inductive AcquireOutcome
  | acquired | lockContention | pending
deriving DecidableEq, Repr

/-- Modelled from the spec: `agora_rtm_lock_acquire_lock` arrives at a lock.  A free lock
goes to the caller; a held lock keeps its owner, and the acquisition fails with the
lock-contention error unless `retry` was asked for, in which case it stays pending. -/
def Lock.acquire (l : Lock) (caller : String) (retry : Bool) : AcquireOutcome × Lock :=
  match l.owner with
  | none => (.acquired, { l with owner := some caller })
  | some _ => if retry then (.pending, l) else (.lockContention, l)

/-- A handler that binds the login result and the message event only. -/
def sampleHandler : Handler := ⟨[onLoginResult, onMessageEvent]⟩

/-- A container with the items A, B and C. -/
def sampleMetadata : Metadata :=
  ⟨3, [⟨"A", "a0", "alice", 1, 100⟩, ⟨"B", "b0", "alice", 2, 200⟩, ⟨"C", "c0", "bob", 3, 300⟩]⟩

/-- An update of the keys A and B by carol, not scoped with a lock. -/
def sampleUpdate : WriteRequest :=
  ⟨"carol", .update, ⟨0, [⟨"A", "a1", "", 0, 0⟩, ⟨"B", "b1", "", 0, 0⟩]⟩, ⟨true, true⟩, none, 400⟩

/-- The locks of a channel in which carol holds the lock `L`. -/
def sampleLocks : List Lock := [⟨"L", some "carol", 30⟩, ⟨"M", none, 30⟩]

/-- The specification's example session: login, its answer, logout, its answer, release. -/
def exampleSession : List Step :=
  [.submit agora_rtm_client_login, .complete 1 0, .submit agora_rtm_client_logout, .complete 2 0,
   .release]

/-- The invariant of a store: its metadata is well formed, every storage event so far
carried well-formed metadata that is not ahead of the store, and no event is ahead of a
later one. -/
structure StorageInv (s : Storage) : Prop where
  wellFormed : s.metadata.WellFormed
  events_behind : ∀ e ∈ s.events, e.WellFormed ∧ e.NotAhead s.metadata
  events_ordered : s.events.Pairwise Metadata.NotAhead
  nonneg : 0 ≤ s.metadata.majorRevision

/-- Three writes by carol under no locks: the key K is set, removed, and set again. -/
def sampleWrites : List (List Lock × WriteRequest) :=
  [([], ⟨"carol", .set, ⟨0, [⟨"K", "k0", "", 0, 0⟩]⟩, ⟨true, true⟩, none, 10⟩),
   ([], ⟨"carol", .remove, ⟨0, [⟨"K", "", "", 0, 0⟩]⟩, ⟨true, true⟩, none, 20⟩),
   ([], ⟨"carol", .set, ⟨0, [⟨"K", "k1", "", 0, 0⟩]⟩, ⟨true, true⟩, none, 30⟩)]

/-! ## Enumerations of the stream channel (C_IAgoraStreamChannel.h, lines 17-53) -/

/-- An enumerant: the enumeration it belongs to, its name, its value, and its doc comment
(the lines of the comment joined by one blank; empty when it has none). -/
structure Enumerant where
  enumName : String
  name : String
  value : Int
  doc : String
deriving DecidableEq, Repr

def RTM_MESSAGE_QOS_UNORDERED : Enumerant :=
  ⟨"C_RTM_MESSAGE_QOS", "RTM_MESSAGE_QOS_UNORDERED", 0,
   "Will not ensure that messages arrive in order."⟩

def RTM_MESSAGE_QOS_ORDERED : Enumerant :=
  ⟨"C_RTM_MESSAGE_QOS", "RTM_MESSAGE_QOS_ORDERED", 1,
   "Will ensure that messages arrive in order."⟩

/-- The enumerants of `C_RTM_MESSAGE_QOS`, in declaration order. -/
def C_RTM_MESSAGE_QOS : List Enumerant :=
  [RTM_MESSAGE_QOS_UNORDERED, RTM_MESSAGE_QOS_ORDERED]

def RTM_MESSAGE_PRIORITY_HIGHEST : Enumerant :=
  ⟨"C_RTM_MESSAGE_PRIORITY", "RTM_MESSAGE_PRIORITY_HIGHEST", 0,
   "The highest priority"⟩

def RTM_MESSAGE_PRIORITY_HIGH : Enumerant :=
  ⟨"C_RTM_MESSAGE_PRIORITY", "RTM_MESSAGE_PRIORITY_HIGH", 1,
   "The high priority"⟩

def RTM_MESSAGE_PRIORITY_NORMAL : Enumerant :=
  ⟨"C_RTM_MESSAGE_PRIORITY", "RTM_MESSAGE_PRIORITY_NORMAL", 4,
   "The normal priority (Default)"⟩

def RTM_MESSAGE_PRIORITY_LOW : Enumerant :=
  ⟨"C_RTM_MESSAGE_PRIORITY", "RTM_MESSAGE_PRIORITY_LOW", 8,
   "The low priority"⟩

/-- The enumerants of `C_RTM_MESSAGE_PRIORITY`, in declaration order. -/
def C_RTM_MESSAGE_PRIORITY : List Enumerant :=
  [RTM_MESSAGE_PRIORITY_HIGHEST, RTM_MESSAGE_PRIORITY_HIGH, RTM_MESSAGE_PRIORITY_NORMAL,
   RTM_MESSAGE_PRIORITY_LOW]

/-! ## The music content center (IAgoraMusicContentCenter.h)

The header is C++: enumerations, plain structs, two structs with constructors or default
member initialisers, and interfaces of pure virtual methods. -/

/-! ### Enumerations (lines 16-131, 263-290, 490-499) -/

def kMusicContentCenterVendorDefault : Enumerant :=
  ⟨"MusicContentCenterVendorID", "kMusicContentCenterVendorDefault", 1,
   "Default vendor"⟩

def kMusicContentCenterVendor2 : Enumerant :=
  ⟨"MusicContentCenterVendorID", "kMusicContentCenterVendor2", 2,
   "Vendor 2"⟩

/-- The enumerants of `MusicContentCenterVendorID`, in declaration order. -/
def MusicContentCenterVendorID : List Enumerant :=
  [kMusicContentCenterVendorDefault, kMusicContentCenterVendor2]

def kMusicPlayModeOriginal : Enumerant :=
  ⟨"MusicPlayMode", "kMusicPlayModeOriginal", 0,
   "0: The music player is in the origin mode, which means playing the original song."⟩

def kMusicPlayModeAccompany : Enumerant :=
  ⟨"MusicPlayMode", "kMusicPlayModeAccompany", 1,
   "1: The music player is in the accompany mode, which means playing the accompaniment only."⟩

def kMusicPlayModeLeadSing : Enumerant :=
  ⟨"MusicPlayMode", "kMusicPlayModeLeadSing", 2,
   "2: The music player is in the lead sing mode, which means playing the lead vocals."⟩

/-- The enumerants of `MusicPlayMode`, in declaration order. -/
def MusicPlayMode : List Enumerant :=
  [kMusicPlayModeOriginal, kMusicPlayModeAccompany, kMusicPlayModeLeadSing]

def kMusicContentCenterStatePreloadOk : Enumerant :=
  ⟨"MusicContentCenterState", "kMusicContentCenterStatePreloadOk", 0,
   ""⟩

def kMusicContentCenterStatePreloadFailed : Enumerant :=
  ⟨"MusicContentCenterState", "kMusicContentCenterStatePreloadFailed", 1,
   ""⟩

def kMusicContentCenterStatePreloading : Enumerant :=
  ⟨"MusicContentCenterState", "kMusicContentCenterStatePreloading", 2,
   ""⟩

def kMusicContentCenterStatePreloadRemoved : Enumerant :=
  ⟨"MusicContentCenterState", "kMusicContentCenterStatePreloadRemoved", 3,
   ""⟩

def kMusicContentCenterStateStartScoreCompleted : Enumerant :=
  ⟨"MusicContentCenterState", "kMusicContentCenterStateStartScoreCompleted", 4,
   ""⟩

def kMusicContentCenterStateStartScoreFailed : Enumerant :=
  ⟨"MusicContentCenterState", "kMusicContentCenterStateStartScoreFailed", 5,
   ""⟩

/-- The enumerants of `MusicContentCenterState`, in declaration order. -/
def MusicContentCenterState : List Enumerant :=
  [kMusicContentCenterStatePreloadOk, kMusicContentCenterStatePreloadFailed,
   kMusicContentCenterStatePreloading, kMusicContentCenterStatePreloadRemoved,
   kMusicContentCenterStateStartScoreCompleted, kMusicContentCenterStateStartScoreFailed]

def kMusicContentCenterReasonOk : Enumerant :=
  ⟨"MusicContentCenterStateReason", "kMusicContentCenterReasonOk", 0,
   "0: No error occurs and request succeeds."⟩

def kMusicContentCenterReasonError : Enumerant :=
  ⟨"MusicContentCenterStateReason", "kMusicContentCenterReasonError", 1,
   "1: A general error occurs."⟩

def kMusicContentCenterReasonGateway : Enumerant :=
  ⟨"MusicContentCenterStateReason", "kMusicContentCenterReasonGateway", 2,
   "2: The gateway error. There are several possible reasons: - Token is expired. Check if your token is expired. - Token is invalid. Check the type of token you passed in. - Network error. Check your network."⟩

def kMusicContentCenterReasonPermissionAndResource : Enumerant :=
  ⟨"MusicContentCenterStateReason", "kMusicContentCenterReasonPermissionAndResource", 3,
   "3: Permission and resource error. There are several possible reasons: - Your appid may not have the mcc permission. Please contact technical support - The resource may not exist. Please contact technical support"⟩

def kMusicContentCenterReasonInternalDataParse : Enumerant :=
  ⟨"MusicContentCenterStateReason", "kMusicContentCenterReasonInternalDataParse", 4,
   "4: Internal data parse error. Please contact technical support"⟩

def kMusicContentCenterReasonMusicLoading : Enumerant :=
  ⟨"MusicContentCenterStateReason", "kMusicContentCenterReasonMusicLoading", 5,
   "5: Music loading error. Please contact technical support"⟩

def kMusicContentCenterReasonMusicDecryption : Enumerant :=
  ⟨"MusicContentCenterStateReason", "kMusicContentCenterReasonMusicDecryption", 6,
   "6: Music decryption error. Please contact technical support"⟩

def kMusicContentCenterReasonHttpInternalError : Enumerant :=
  ⟨"MusicContentCenterStateReason", "kMusicContentCenterReasonHttpInternalError", 7,
   "7: Http internal error. Please retry later."⟩

/-- The enumerants of `MusicContentCenterStateReason`, in declaration order. -/
def MusicContentCenterStateReason : List Enumerant :=
  [kMusicContentCenterReasonOk, kMusicContentCenterReasonError,
   kMusicContentCenterReasonGateway, kMusicContentCenterReasonPermissionAndResource,
   kMusicContentCenterReasonInternalDataParse, kMusicContentCenterReasonMusicLoading,
   kMusicContentCenterReasonMusicDecryption, kMusicContentCenterReasonHttpInternalError]

def MUSIC_CACHE_STATUS_TYPE_CACHED : Enumerant :=
  ⟨"MUSIC_CACHE_STATUS_TYPE", "MUSIC_CACHE_STATUS_TYPE_CACHED", 0,
   "0: Music is already cached."⟩

def MUSIC_CACHE_STATUS_TYPE_CACHING : Enumerant :=
  ⟨"MUSIC_CACHE_STATUS_TYPE", "MUSIC_CACHE_STATUS_TYPE_CACHING", 1,
   "1: Music is being cached."⟩

def MUSIC_CACHE_STATUS_TYPE_NO_CACHED : Enumerant :=
  ⟨"MUSIC_CACHE_STATUS_TYPE", "MUSIC_CACHE_STATUS_TYPE_NO_CACHED", 2,
   "2: Music is not cached."⟩

def MUSIC_CACHE_STATUS_TYPE_NO_RESOURCE : Enumerant :=
  ⟨"MUSIC_CACHE_STATUS_TYPE", "MUSIC_CACHE_STATUS_TYPE_NO_RESOURCE", 3,
   "3: Music is no resource."⟩

/-- The enumerants of `MUSIC_CACHE_STATUS_TYPE`, in declaration order. -/
def MUSIC_CACHE_STATUS_TYPE : List Enumerant :=
  [MUSIC_CACHE_STATUS_TYPE_CACHED, MUSIC_CACHE_STATUS_TYPE_CACHING,
   MUSIC_CACHE_STATUS_TYPE_NO_CACHED, MUSIC_CACHE_STATUS_TYPE_NO_RESOURCE]

def kLyricSourceXml : Enumerant :=
  ⟨"LyricSourceType", "kLyricSourceXml", 0,
   "0: xml"⟩

def kLyricSourceLrc : Enumerant :=
  ⟨"LyricSourceType", "kLyricSourceLrc", 1,
   "1: lrc"⟩

def kLyricSourceLrcWithPitches : Enumerant :=
  ⟨"LyricSourceType", "kLyricSourceLrcWithPitches", 2,
   "2: lrc with pitches"⟩

def kLyricSourceKrc : Enumerant :=
  ⟨"LyricSourceType", "kLyricSourceKrc", 3,
   "3: krc"⟩

/-- The enumerants of `LyricSourceType`, in declaration order. -/
def LyricSourceType : List Enumerant :=
  [kLyricSourceXml, kLyricSourceLrc, kLyricSourceLrcWithPitches, kLyricSourceKrc]

def kScoreLevel1 : Enumerant :=
  ⟨"ScoreLevel", "kScoreLevel1", 1,
   ""⟩

def kScoreLevel2 : Enumerant :=
  ⟨"ScoreLevel", "kScoreLevel2", 2,
   ""⟩

def kScoreLevel3 : Enumerant :=
  ⟨"ScoreLevel", "kScoreLevel3", 3,
   ""⟩

def kScoreLevel4 : Enumerant :=
  ⟨"ScoreLevel", "kScoreLevel4", 4,
   ""⟩

def kScoreLevel5 : Enumerant :=
  ⟨"ScoreLevel", "kScoreLevel5", 5,
   ""⟩

/-- The enumerants of `ScoreLevel`, in declaration order. -/
def ScoreLevel : List Enumerant :=
  [kScoreLevel1, kScoreLevel2, kScoreLevel3, kScoreLevel4, kScoreLevel5]

def kChargeModeMonthly : Enumerant :=
  ⟨"ChargeMode", "kChargeModeMonthly", 1,
   "1: Monthly charge mode"⟩

def kChargeModeOnce : Enumerant :=
  ⟨"ChargeMode", "kChargeModeOnce", 2,
   "2: Charge once mode"⟩

/-- The enumerants of `ChargeMode`, in declaration order. -/
def ChargeMode : List Enumerant :=
  [kChargeModeMonthly, kChargeModeOnce]

/-- The enumerants of the header, in header order. -/
def musicEnumerants : List Enumerant :=
  MusicContentCenterVendorID ++ MusicPlayMode ++ MusicContentCenterState ++
    MusicContentCenterStateReason ++ MUSIC_CACHE_STATUS_TYPE ++ LyricSourceType ++
    ScoreLevel ++ ChargeMode

/-- The numeric code a doc comment states: the digits it starts with, when a colon follows
them (`"2: Music is not cached."` states 2). -/
def leadingCode (doc : String) : Option Nat :=
  let digits := doc.toList.takeWhile Char.isDigit
  if digits ≠ [] ∧ (doc.toList.drop digits.length).head? = some ':' then
    some (digits.foldl (fun n c => 10 * n + (c.toNat - '0'.toNat)) 0)
  else none

/-- Whether a text occurs in a doc comment. -/
def occursIn (text doc : String) : Bool :=
  doc.toList.tails.any fun rest => text.toList.isPrefixOf rest

/-! ### `struct Music` -/

/-- A field of a struct with its doc comment. -/
structure DocField where
  ty : String
  name : String
  doc : String
deriving DecidableEq, Repr

/-- `struct Music` (lines 179-250): each field with its doc comment, the lines of the comment
joined by one blank. -/
def Music : List DocField :=
  [⟨"int64_t", "songCode",
    "The songCode of music"⟩,
   ⟨"const char *", "name",
    "The name of music"⟩,
   ⟨"const char *", "singer",
    "The singer of music"⟩,
   ⟨"const char *", "poster",
    "The poster url of music"⟩,
   ⟨"const char *", "releaseTime",
    "The release time of music"⟩,
   ⟨"int32_t", "durationS",
    "The duration (in seconds) of music"⟩,
   ⟨"int32_t", "type",
    "The type of music 1, mp3 with instrumental accompaniment and original 2, mp3 only with instrumental accompaniment 3, mp3 only with original 4, mp4 with instrumental accompaniment and original 5, mv only 6, new type mp4 with instrumental accompaniment and original detail at document of music media center"⟩,
   ⟨"int32_t", "pitchType",
    "The pitch type of music. 1, xml lyric has pitch 2, lyric has no pitch"⟩,
   ⟨"int32_t", "lyricCount",
    "The number of lyrics available for the music"⟩,
   ⟨"int32_t *", "lyricList",
    "The lyric list of music 0, xml 1, lrc"⟩,
   ⟨"int32_t", "climaxSegmentCount",
    "The number of climax segments of the music"⟩,
   ⟨"ClimaxSegment *", "climaxSegmentList",
    "The climax segment list of music"⟩,
   ⟨"int32_t", "mvPropertyCount",
    "The number of mv of the music If this value is greater than zero, it means the current music has MV resource"⟩,
   ⟨"MvProperty *", "mvPropertyList",
    "The mv property list of music"⟩]

/-- The doc comment of a field of `struct Music` (empty when there is no such field). -/
def Music_doc (field : String) : String :=
  match Music.find? fun f => f.name == field with
  | some f => f.doc
  | none => ""

/-! ### `struct MusicCacheInfo` (lines 133-146) and `struct MusicContentCenterConfiguration`
(lines 586-606) -/

/-- A C++ object pointer; `none` is `nullptr`. -/
abbrev Pointer := Option Nat

/-- `struct MusicCacheInfo`: `songCode` has no initialiser, the two statuses have the default
member initialiser `MUSIC_CACHE_STATUS_TYPE_NO_CACHED`. -/
structure MusicCacheInfo where
  songCode : Int
  musicStatus : Enumerant := MUSIC_CACHE_STATUS_TYPE_NO_CACHED
  lyricStatus : Enumerant := MUSIC_CACHE_STATUS_TYPE_NO_CACHED
deriving DecidableEq, Repr

/-- `struct MusicContentCenterConfiguration`, its fields in declaration order.  The
`int32_t maxCacheSize` is only stored, never computed with. -/
structure MusicContentCenterConfiguration where
  maxCacheSize : Int
  eventHandler : Pointer
  scoreEventHandler : Pointer
  audioFrameObserver : Pointer
deriving DecidableEq, Repr

/-- The constructor `MusicContentCenterConfiguration()` (line 604), with its initialiser list
in the order the header writes it:
`eventHandler(nullptr), scoreEventHandler(nullptr), maxCacheSize(20), audioFrameObserver(nullptr)`.
C++ initialises the members in declaration order whatever the order of the list; no
initialiser here reads another member. -/
def MusicContentCenterConfiguration.construct : MusicContentCenterConfiguration :=
  { eventHandler := none, scoreEventHandler := none, maxCacheSize := 20,
    audioFrameObserver := none }

/-- The constructor `MusicContentCenterConfiguration(int32_t maxCacheSize,
IMusicContentCenterEventHandler* eventHandler, IScoreEventHandler* scoreEventHandler,
media::IAudioFrameObserver* audioFrameObserver)` (line 605), with its initialiser list
`maxCacheSize(maxCacheSize), eventHandler(eventHandler), scoreEventHandler(scoreEventHandler),
audioFrameObserver(audioFrameObserver)`. -/
def MusicContentCenterConfiguration.constructWith (maxCacheSize : Int)
    (eventHandler scoreEventHandler audioFrameObserver : Pointer) :
    MusicContentCenterConfiguration :=
  { maxCacheSize := maxCacheSize, eventHandler := eventHandler,
    scoreEventHandler := scoreEventHandler, audioFrameObserver := audioFrameObserver }

/-- The member names of the two initialiser lists, in the order the header writes them. -/
def initialiserOrder : List String × List String :=
  (["eventHandler", "scoreEventHandler", "maxCacheSize", "audioFrameObserver"],
   ["maxCacheSize", "eventHandler", "scoreEventHandler", "audioFrameObserver"])

/-! ### Interfaces -/

/-- A parameter of a C++ method: type, name, default argument (`none` when the declaration
gives none), and the text of its `@param` clause, looked up by the parameter's name (`none`
when the doc comment has no clause of that name). -/
structure CxxParam where
  ty : String
  name : String
  defaultArg : Option String
  doc : Option String
deriving DecidableEq, Repr

/-- A pure virtual method: class, return type, name, parameters, and the text of the
`@return` clause of its doc comment. -/
structure MethodDecl where
  cls : String
  ret : String
  name : String
  params : List CxxParam
  returnDoc : Option String
deriving DecidableEq, Repr

def MusicChartCollection_getCount : MethodDecl :=
  ⟨"MusicChartCollection", "int", "getCount",
   [],
   none⟩

def MusicChartCollection_get : MethodDecl :=
  ⟨"MusicChartCollection", "MusicChartInfo *", "get",
   [⟨"int", "index", none, none⟩],
   none⟩

def MusicCollection_getCount : MethodDecl :=
  ⟨"MusicCollection", "int", "getCount",
   [],
   none⟩

def MusicCollection_getTotal : MethodDecl :=
  ⟨"MusicCollection", "int", "getTotal",
   [],
   none⟩

def MusicCollection_getPage : MethodDecl :=
  ⟨"MusicCollection", "int", "getPage",
   [],
   none⟩

def MusicCollection_getPageSize : MethodDecl :=
  ⟨"MusicCollection", "int", "getPageSize",
   [],
   none⟩

def MusicCollection_getMusic : MethodDecl :=
  ⟨"MusicCollection", "Music *", "getMusic",
   [⟨"int32_t", "index", none, none⟩],
   none⟩

def IWord_getBegin : MethodDecl :=
  ⟨"IWord", "int", "getBegin",
   [],
   some "The start time of the word in milliseconds."⟩

def IWord_getDuration : MethodDecl :=
  ⟨"IWord", "int", "getDuration",
   [],
   some "The duration of the word in milliseconds."⟩

def IWord_getRefPitch : MethodDecl :=
  ⟨"IWord", "double", "getRefPitch",
   [],
   some "The reference pitch of the word."⟩

def IWord_getWord : MethodDecl :=
  ⟨"IWord", "const char *", "getWord",
   [],
   some "The content of the word."⟩

def IWord_getScore : MethodDecl :=
  ⟨"IWord", "int", "getScore",
   [],
   some "The score of the word."⟩

def ISentence_getContent : MethodDecl :=
  ⟨"ISentence", "const char *", "getContent",
   [],
   some "The content of the sentence."⟩

def ISentence_getBegin : MethodDecl :=
  ⟨"ISentence", "int", "getBegin",
   [],
   some "The start time of the sentence in milliseconds."⟩

def ISentence_getDuration : MethodDecl :=
  ⟨"ISentence", "int", "getDuration",
   [],
   some "The duration of the sentence in milliseconds."⟩

def ISentence_getWord : MethodDecl :=
  ⟨"ISentence", "agora_refptr<IWord>", "getWord",
   [⟨"int32_t", "index", none, some "The index of the word."⟩],
   some "A reference to the word at the specified index."⟩

def ISentence_getWordCount : MethodDecl :=
  ⟨"ISentence", "int", "getWordCount",
   [],
   some "The number of words in the sentence."⟩

def ISentence_getScore : MethodDecl :=
  ⟨"ISentence", "int", "getScore",
   [],
   some "The score of the sentence."⟩

def ILyricInfo_getName : MethodDecl :=
  ⟨"ILyricInfo", "const char *", "getName",
   [],
   some "The name of the song."⟩

def ILyricInfo_getSinger : MethodDecl :=
  ⟨"ILyricInfo", "const char *", "getSinger",
   [],
   some "The singer of the song."⟩

def ILyricInfo_getPreludeEndPosition : MethodDecl :=
  ⟨"ILyricInfo", "int", "getPreludeEndPosition",
   [],
   some "The end position of the prelude in milliseconds."⟩

def ILyricInfo_getDuration : MethodDecl :=
  ⟨"ILyricInfo", "int", "getDuration",
   [],
   some "The duration of the song in milliseconds."⟩

def ILyricInfo_getHasPitch : MethodDecl :=
  ⟨"ILyricInfo", "bool", "getHasPitch",
   [],
   some "True if the song has pitch information, false otherwise."⟩

def ILyricInfo_getSourceType : MethodDecl :=
  ⟨"ILyricInfo", "LyricSourceType", "getSourceType",
   [],
   some "The source type of the lyrics."⟩

def ILyricInfo_getSentence : MethodDecl :=
  ⟨"ILyricInfo", "agora_refptr<ISentence>", "getSentence",
   [⟨"int32_t", "index", none, some "The index of the sentence."⟩],
   some "A reference to the sentence at the specified index."⟩

def ILyricInfo_getSentenceCount : MethodDecl :=
  ⟨"ILyricInfo", "int", "getSentenceCount",
   [],
   some "The number of sentences in the song."⟩

def IScoreEventHandler_onPitch : MethodDecl :=
  ⟨"IScoreEventHandler", "void", "onPitch",
   [⟨"int64_t", "songCode", none, none⟩,
    ⟨"RawScoreData &", "rawScoreData", none, none⟩],
   none⟩

def IScoreEventHandler_onLineScore : MethodDecl :=
  ⟨"IScoreEventHandler", "void", "onLineScore",
   [⟨"int64_t", "songCode", none, none⟩,
    ⟨"LineScoreData &", "lineScoreData", none, none⟩],
   none⟩

def IMusicContentCenterEventHandler_onMusicChartsResult : MethodDecl :=
  ⟨"IMusicContentCenterEventHandler", "void", "onMusicChartsResult",
   [⟨"const char *", "requestId", none,
     some "The request id is same as that returned by getMusicCharts."⟩,
    ⟨"agora_refptr<MusicChartCollection>", "result", none,
     some "The result of music chart collection"⟩,
    ⟨"MusicContentCenterStateReason", "reason", none,
     some "The status of the request. See MusicContentCenterStateReason"⟩],
   none⟩

def IMusicContentCenterEventHandler_onMusicCollectionResult : MethodDecl :=
  ⟨"IMusicContentCenterEventHandler", "void", "onMusicCollectionResult",
   [⟨"const char *", "requestId", none,
     some "The request id is same as that returned by getMusicCollectionByMusicChartId or searchMusic"⟩,
    ⟨"agora_refptr<MusicCollection>", "result", none, some "The result of music collection"⟩,
    ⟨"MusicContentCenterStateReason", "reason", none,
     some "The status of the request. See MusicContentCenterStateReason"⟩],
   none⟩

def IMusicContentCenterEventHandler_onLyricResult : MethodDecl :=
  ⟨"IMusicContentCenterEventHandler", "void", "onLyricResult",
   [⟨"const char *", "requestId", none, some "The request id is same as that returned by getLyric"⟩,
    ⟨"int64_t", "internalSongCode", none, none⟩,
    ⟨"const char *", "payload", none, none⟩,
    ⟨"MusicContentCenterStateReason", "reason", none,
     some "The status of the request. See MusicContentCenterStateReason"⟩],
   none⟩

def IMusicContentCenterEventHandler_onLyricInfoResult : MethodDecl :=
  ⟨"IMusicContentCenterEventHandler", "void", "onLyricInfoResult",
   [⟨"const char *", "requestId", none, none⟩,
    ⟨"int64_t", "songCode", none, none⟩,
    ⟨"agora_refptr<ILyricInfo>", "lyricInfo", none, none⟩,
    ⟨"MusicContentCenterStateReason", "reason", none, none⟩],
   none⟩

def IMusicContentCenterEventHandler_onSongSimpleInfoResult : MethodDecl :=
  ⟨"IMusicContentCenterEventHandler", "void", "onSongSimpleInfoResult",
   [⟨"const char *", "requestId", none,
     some "The request id is same as that returned by getSongSimpleInfo."⟩,
    ⟨"int64_t", "songCode", none, some "Song code"⟩,
    ⟨"const char *", "simpleInfo", none, some "The metadata of the music."⟩,
    ⟨"MusicContentCenterStateReason", "reason", none,
     some "The status of the request. See MusicContentCenterStateReason"⟩],
   none⟩

def IMusicContentCenterEventHandler_onPreLoadEvent : MethodDecl :=
  ⟨"IMusicContentCenterEventHandler", "void", "onPreLoadEvent",
   [⟨"const char *", "requestId", none, some "The request id is same as that returned by preload."⟩,
    ⟨"int64_t", "internalSongCode", none, none⟩,
    ⟨"int", "percent", none, some "Preload progress (0 ~ 100)"⟩,
    ⟨"const char *", "payload", none, none⟩,
    ⟨"MusicContentCenterState", "status", none, none⟩,
    ⟨"MusicContentCenterStateReason", "reason", none,
     some "The status of the request. See MusicContentCenterStateReason"⟩],
   none⟩

def IMusicContentCenterEventHandler_onStartScoreResult : MethodDecl :=
  ⟨"IMusicContentCenterEventHandler", "void", "onStartScoreResult",
   [⟨"int64_t", "internalSongCode", none, none⟩,
    ⟨"MusicContentCenterState", "status", none,
     some "The status of the request. See MusicContentCenterState"⟩,
    ⟨"MusicContentCenterStateReason", "reason", none,
     some "The status of the request. See MusicContentCenterStateReason"⟩],
   none⟩

def IMusicPlayer_open : MethodDecl :=
  ⟨"IMusicPlayer", "int", "open",
   [⟨"int64_t", "songCode", none, some "The identifier of the media file that you want to play."⟩,
    ⟨"int64_t", "startPos", some "0", some "The playback position (ms) of the music file."⟩],
   some "- 0: Success. - < 0: Failure."⟩

def IMusicPlayer_setPlayMode : MethodDecl :=
  ⟨"IMusicPlayer", "int", "setPlayMode",
   [⟨"MusicPlayMode", "mode", none, none⟩],
   some "- 0: Success. - < 0: Failure."⟩

def IMusicContentCenter_initialize : MethodDecl :=
  ⟨"IMusicContentCenter", "int", "initialize",
   [⟨"const MusicContentCenterConfiguration &", "configuration", none, some ""⟩],
   some "- 0: Success. - < 0: Failure."⟩

def IMusicContentCenter_addVendor : MethodDecl :=
  ⟨"IMusicContentCenter", "int", "addVendor",
   [⟨"MccVendorID", "vendorId", none, some "The vendor id."⟩,
    ⟨"const char *", "jsonVendorConfig", none, some "The json string of vendor config."⟩],
   some "- 0: Success. - < 0: Failure."⟩

def IMusicContentCenter_removeVendor : MethodDecl :=
  ⟨"IMusicContentCenter", "int", "removeVendor",
   [⟨"MccVendorID", "vendorId", none, some "The vendor id."⟩],
   some "- 0: Success. - < 0: Failure."⟩

def IMusicContentCenter_renewToken : MethodDecl :=
  ⟨"IMusicContentCenter", "int", "renewToken",
   [⟨"MccVendorID", "vendorID", none, some "The vendor id."⟩,
    ⟨"const char *", "token", none, some "The new token."⟩],
   some "- 0: Success. - < 0: Failure."⟩

def IMusicContentCenter_release : MethodDecl :=
  ⟨"IMusicContentCenter", "void", "release",
   [],
   none⟩

def IMusicContentCenter_registerEventHandler : MethodDecl :=
  ⟨"IMusicContentCenter", "int", "registerEventHandler",
   [⟨"IMusicContentCenterEventHandler *", "eventHandler", none, none⟩],
   none⟩

def IMusicContentCenter_unregisterEventHandler : MethodDecl :=
  ⟨"IMusicContentCenter", "int", "unregisterEventHandler",
   [⟨"IMusicContentCenterEventHandler *", "eventHandler", none, none⟩],
   none⟩

def IMusicContentCenter_createMusicPlayer : MethodDecl :=
  ⟨"IMusicContentCenter", "agora_refptr<IMusicPlayer>", "createMusicPlayer",
   [],
   some "- The pointer to \\ref rtc::IMusicPlayer \"IMusicPlayer\", if the method call succeeds. - The empty pointer NULL, if the method call fails."⟩

def IMusicContentCenter_destroyMusicPlayer : MethodDecl :=
  ⟨"IMusicContentCenter", "int", "destroyMusicPlayer",
   [⟨"agora_refptr<IMusicPlayer>", "music_player", none,
     some "The pointer to \\ref rtc::IMusicPlayer \"IMusicPlayer\"."⟩],
   some "- 0: Success. - < 0: Failure."⟩

def IMusicContentCenter_getMusicCharts : MethodDecl :=
  ⟨"IMusicContentCenter", "int", "getMusicCharts",
   [⟨"agora::util::AString &", "requestId", none,
     some "The request id you will get of this query, format is uuid."⟩],
   some "- 0: Success. - < 0: Failure."⟩

def IMusicContentCenter_getMusicCollectionByMusicChartId : MethodDecl :=
  ⟨"IMusicContentCenter", "int", "getMusicCollectionByMusicChartId",
   [⟨"agora::util::AString &", "requestId", none,
     some "The request id you will get of this query, format is uuid."⟩,
    ⟨"int32_t", "musicChartId", none, some "The music chart id obtained from getMusicCharts."⟩,
    ⟨"int32_t", "page", none, some "The page of the music chart, starting from 1"⟩,
    ⟨"int32_t", "pageSize", none, some "The page size, max is 50."⟩,
    ⟨"const char *", "jsonOption", some "nullptr", some "The ext param, default is null."⟩],
   some "- 0: Success. - < 0: Failure."⟩

def IMusicContentCenter_searchMusic : MethodDecl :=
  ⟨"IMusicContentCenter", "int", "searchMusic",
   [⟨"agora::util::AString &", "requestId", none,
     some "The request id you will get of this query, format is uuid."⟩,
    ⟨"const char *", "keyWord", none, some "The key word to search."⟩,
    ⟨"int32_t", "page", none, some "The page of music search result , start from 1."⟩,
    ⟨"int32_t", "pageSize", none, some "The page size, max is 50."⟩,
    ⟨"const char *", "jsonOption", some "nullptr", some "The ext param, default is null."⟩],
   some "- 0: Success. - < 0: Failure."⟩

def IMusicContentCenter_preload : MethodDecl :=
  ⟨"IMusicContentCenter", "int", "preload",
   [⟨"agora::util::AString &", "requestId", none,
     some "The request id you will get of this query, format is uuid."⟩,
    ⟨"int64_t", "internalSongCode", none, none⟩],
   some "- 0: Success. - < 0: Failure."⟩

def IMusicContentCenter_registerScoreEventHandler : MethodDecl :=
  ⟨"IMusicContentCenter", "int", "registerScoreEventHandler",
   [⟨"IScoreEventHandler *", "scoreEventHandler", none, none⟩],
   none⟩

def IMusicContentCenter_unregisterScoreEventHandler : MethodDecl :=
  ⟨"IMusicContentCenter", "int", "unregisterScoreEventHandler",
   [⟨"IScoreEventHandler *", "scoreEventHandler", none, none⟩],
   none⟩

def IMusicContentCenter_setScoreLevel : MethodDecl :=
  ⟨"IMusicContentCenter", "int", "setScoreLevel",
   [⟨"ScoreLevel", "level", none, some "The score level of the music."⟩],
   some "- 0: Success. - < 0: Failure."⟩

def IMusicContentCenter_startScore : MethodDecl :=
  ⟨"IMusicContentCenter", "int", "startScore",
   [⟨"int64_t", "internalSongCode", none, some "The identifier of the media file that you play."⟩],
   some "- 0: Success. - < 0: Failure."⟩

def IMusicContentCenter_stopScore : MethodDecl :=
  ⟨"IMusicContentCenter", "int", "stopScore",
   [],
   some "- 0: Success. - < 0: Failure."⟩

def IMusicContentCenter_pauseScore : MethodDecl :=
  ⟨"IMusicContentCenter", "int", "pauseScore",
   [],
   some "- 0: Success. - < 0: Failure."⟩

def IMusicContentCenter_resumeScore : MethodDecl :=
  ⟨"IMusicContentCenter", "int", "resumeScore",
   [],
   some "- 0: Success. - < 0: Failure."⟩

def IMusicContentCenter_getCumulativeScoreData : MethodDecl :=
  ⟨"IMusicContentCenter", "int", "getCumulativeScoreData",
   [⟨"CumulativeScoreData &", "cumulativeScoreData", none,
     some "The cumulative score data of the songCode, you will get the result from this parameter."⟩],
   some "- 0: Success. - < 0: Failure."⟩

def IMusicContentCenter_removeCache : MethodDecl :=
  ⟨"IMusicContentCenter", "int", "removeCache",
   [⟨"int64_t", "internalSongCode", none,
     some "The identifier of the media file that you want to play."⟩],
   some "- 0: Success; the cached media file is removed. - < 0: Failure."⟩

def IMusicContentCenter_getCaches : MethodDecl :=
  ⟨"IMusicContentCenter", "int", "getCaches",
   [⟨"MusicCacheInfo *", "cacheInfo", none,
     some "An output parameter; A pointer to the memory buffer that stores the cached media file information. The memory buffer pointed to by cacheInfo should be allocated by yourself before calling this API."⟩,
    ⟨"int32_t *", "cacheInfoSize", none,
     some "- Input: The number of MusicCacheInfo's size that you get from the memory. - Output: The actual number of MusicCacheInfo struct that is returned."⟩],
   some "- 0: Success. - < 0: Failure."⟩

def IMusicContentCenter_isPreloaded : MethodDecl :=
  ⟨"IMusicContentCenter", "int", "isPreloaded",
   [⟨"int64_t", "internalSongCode", none,
     some "The identifier of the media file that you want to play."⟩],
   some "- 0: Success, file is preloaded. - < 0: Failure."⟩

def IMusicContentCenter_getLyric : MethodDecl :=
  ⟨"IMusicContentCenter", "int", "getLyric",
   [⟨"agora::util::AString &", "requestId", none,
     some "The request id you will get of this query, format is uuid."⟩,
    ⟨"int64_t", "internalSongCode", none,
     some "The identifier of the media file that you want to play."⟩,
    ⟨"int32_t", "lyricType", some "0", some "The type of the lyric file. 0:xml or 1:lrc."⟩],
   some "- 0: Success. - < 0: Failure."⟩

def IMusicContentCenter_getLyricInfo : MethodDecl :=
  ⟨"IMusicContentCenter", "int", "getLyricInfo",
   [⟨"agora::util::AString &", "requestId", none,
     some "The request id you will get of this query, format is uuid."⟩,
    ⟨"int64_t", "internalSongCode", none,
     some "The identifier of the media file that you want to play."⟩],
   some "- 0: Success. - < 0: Failure."⟩

def IMusicContentCenter_getSongSimpleInfo : MethodDecl :=
  ⟨"IMusicContentCenter", "int", "getSongSimpleInfo",
   [⟨"agora::util::AString &", "requestId", none,
     some "The request id you will get of this query, format is uuid."⟩,
    ⟨"int64_t", "internalSongCode", none, some "The identifier of the media file."⟩],
   some "- 0: Success. - < 0: Failure."⟩

def IMusicContentCenter_getInternalSongCode : MethodDecl :=
  ⟨"IMusicContentCenter", "int", "getInternalSongCode",
   [⟨"MccVendorID", "vendorId", none, some "The vendor id."⟩,
    ⟨"const char *", "songCode", none, some "The identifier of the media file."⟩,
    ⟨"const char *", "jsonOption", none,
     some "An extention parameter. The default value is null. itâ€™s a json-format string and the `key` and `value` can be customized according to your scenarios."⟩,
    ⟨"int64_t &", "internalSongCode", none, some "The identifier of internal"⟩],
   some "- 0: Success. - < 0: Failure."⟩

/-- Every pure virtual method the header declares, in header order. -/
def musicMethods : List MethodDecl :=
  [MusicChartCollection_getCount, MusicChartCollection_get, MusicCollection_getCount,
   MusicCollection_getTotal, MusicCollection_getPage, MusicCollection_getPageSize,
   MusicCollection_getMusic, IWord_getBegin, IWord_getDuration, IWord_getRefPitch,
   IWord_getWord, IWord_getScore, ISentence_getContent, ISentence_getBegin,
   ISentence_getDuration, ISentence_getWord, ISentence_getWordCount, ISentence_getScore,
   ILyricInfo_getName, ILyricInfo_getSinger, ILyricInfo_getPreludeEndPosition,
   ILyricInfo_getDuration, ILyricInfo_getHasPitch, ILyricInfo_getSourceType,
   ILyricInfo_getSentence, ILyricInfo_getSentenceCount, IScoreEventHandler_onPitch,
   IScoreEventHandler_onLineScore, IMusicContentCenterEventHandler_onMusicChartsResult,
   IMusicContentCenterEventHandler_onMusicCollectionResult,
   IMusicContentCenterEventHandler_onLyricResult,
   IMusicContentCenterEventHandler_onLyricInfoResult,
   IMusicContentCenterEventHandler_onSongSimpleInfoResult,
   IMusicContentCenterEventHandler_onPreLoadEvent,
   IMusicContentCenterEventHandler_onStartScoreResult, IMusicPlayer_open,
   IMusicPlayer_setPlayMode, IMusicContentCenter_initialize, IMusicContentCenter_addVendor,
   IMusicContentCenter_removeVendor, IMusicContentCenter_renewToken,
   IMusicContentCenter_release, IMusicContentCenter_registerEventHandler,
   IMusicContentCenter_unregisterEventHandler, IMusicContentCenter_createMusicPlayer,
   IMusicContentCenter_destroyMusicPlayer, IMusicContentCenter_getMusicCharts,
   IMusicContentCenter_getMusicCollectionByMusicChartId, IMusicContentCenter_searchMusic,
   IMusicContentCenter_preload, IMusicContentCenter_registerScoreEventHandler,
   IMusicContentCenter_unregisterScoreEventHandler, IMusicContentCenter_setScoreLevel,
   IMusicContentCenter_startScore, IMusicContentCenter_stopScore,
   IMusicContentCenter_pauseScore, IMusicContentCenter_resumeScore,
   IMusicContentCenter_getCumulativeScoreData, IMusicContentCenter_removeCache,
   IMusicContentCenter_getCaches, IMusicContentCenter_isPreloaded, IMusicContentCenter_getLyric,
   IMusicContentCenter_getLyricInfo, IMusicContentCenter_getSongSimpleInfo,
   IMusicContentCenter_getInternalSongCode]

/-- The parameters of the header that have a default argument, each with its method. -/
def defaultedParams : List (MethodDecl × CxxParam) :=
  musicMethods.flatMap fun m => (m.params.filter fun p => p.defaultArg.isSome).map fun p => (m, p)

/-- The arguments of a call as C++ binds them: each parameter takes the argument written
for it, and a parameter for which the call writes none takes its default argument; a call
with too many arguments, or with none for a parameter without default, is ill-formed
(`none`). -/
def bindArguments : List CxxParam → List String → Option (List (String × String))
  | [], [] => some []
  | [], _ :: _ => none
  | p :: ps, a :: rest => (bindArguments ps rest).map fun bound => (p.name, a) :: bound
  | p :: ps, [] =>
    match p.defaultArg with
    | some d => (bindArguments ps []).map fun bound => (p.name, d) :: bound
    | none => none

/-- The text of the `@param` clause of a parameter of a method (empty when there is none). -/
def MethodDecl.paramDoc (m : MethodDecl) (param : String) : String :=
  match m.params.find? fun p => p.name == param with
  | some p => p.doc.getD ""
  | none => ""

/-- A call of a method with the arguments written. -/
def MethodDecl.call (m : MethodDecl) (args : List String) : Option (List (String × String)) :=
  bindArguments m.params args

/-! ## Lemmas about the correlator -/

theorem submit_live (c : Correlator) (op : FunDecl) (h : c.handle = .live) :
    submit c op =
      (.ok c.nextRequestId,
       { c with
         nextRequestId := c.nextRequestId + 1
         submitted := c.submitted ++ [⟨c.nextRequestId, op⟩]
         inflight := c.inflight ++ [⟨c.nextRequestId, op⟩] }) := by
  simp [submit, h]

theorem submit_not_live (c : Correlator) (op : FunDecl) (h : c.handle ≠ .live) :
    submit c op = (.error .invocationError, c) := by
  cases hc : c.handle <;> simp_all [submit]

theorem complete_nextRequestId (c : Correlator) (id : Nat) (e : Int) :
    (complete c id e).nextRequestId = c.nextRequestId := by
  unfold complete
  split <;> rfl

theorem release_nextRequestId (c : Correlator) : (release c).nextRequestId = c.nextRequestId := by
  unfold release
  split <;> rfl

/-- The ids a session hands back lie between the next id at its start and that id plus the
number of steps, and they come in strictly increasing order. -/
theorem returned_bounds (steps : List Step) :
    ∀ c : Correlator,
      (∀ r ∈ returned c steps,
        c.nextRequestId ≤ r.requestId ∧ r.requestId < c.nextRequestId + steps.length) ∧
      (returnedIds c steps).Pairwise (· < ·) := by
  induction steps with
  | nil => intro c; simp [returned, returnedIds]
  | cons s rest ih =>
    intro c
    cases s with
    | submit op =>
      by_cases h : c.handle = .live
      · obtain ⟨hb, hp⟩ := ih (submit c op).2
        simp only [returnedIds] at hp ⊢
        rw [submit_live c op h] at hb hp
        simp only [returned, submit_live c op h, List.mem_cons, List.map_cons,
          List.pairwise_cons, List.length_cons]
        refine ⟨?_, ?_, hp⟩
        · rintro r (rfl | hr)
          · simp
          · have := hb r hr
            simp only at this
            omega
        · intro a ha
          obtain ⟨r, hr, rfl⟩ := List.mem_map.1 ha
          have := hb r hr
          simp only at this
          omega
      · obtain ⟨hb, hp⟩ := ih c
        simp only [returnedIds] at hp ⊢
        simp only [returned, submit_not_live c op h, List.length_cons]
        refine ⟨?_, hp⟩
        intro r hr
        have := hb r hr
        omega
    | complete id e =>
      obtain ⟨hb, hp⟩ := ih (complete c id e)
      simp only [returnedIds] at hp ⊢
      rw [complete_nextRequestId] at hb
      simp only [returned, List.length_cons]
      refine ⟨?_, hp⟩
      intro r hr
      have := hb r hr
      omega
    | release =>
      obtain ⟨hb, hp⟩ := ih (release c)
      simp only [returnedIds] at hp ⊢
      rw [release_nextRequestId] at hb
      simp only [returned, List.length_cons]
      refine ⟨?_, hp⟩
      intro r hr
      have := hb r hr
      omega

theorem complete_submitted (c : Correlator) (id : Nat) (e : Int) :
    (complete c id e).submitted = c.submitted := by
  unfold complete
  split <;> rfl

theorem Inv.allocated_nodup {c : Correlator} (h : Inv c) : c.allocated.Nodup :=
  h.increasing.imp (fun hlt => Nat.ne_of_lt hlt)

theorem Inv.same_id {c : Correlator} (h : Inv c) {r r' : Request} (hr : r ∈ c.submitted)
    (hr' : r' ∈ c.submitted) (hid : r.requestId = r'.requestId) : r = r' :=
  List.inj_on_of_nodup_map h.allocated_nodup hr hr' hid

theorem inv_create : Inv Correlator.create := by
  constructor <;> simp [Correlator.create, Correlator.allocated, Correlator.deliveredIds]

theorem inv_submit {c : Correlator} (h : Inv c) (op : FunDecl) : Inv (submit c op).2 := by
  by_cases hl : c.handle = .live
  · rw [submit_live c op hl]
    constructor
    · intro r hr
      simp only [List.mem_append, List.mem_singleton] at hr
      rcases hr with hr | rfl
      · have := h.below r hr
        simp only
        omega
      · simp
    · simp only [Correlator.allocated, List.map_append, List.map_cons, List.map_nil]
      rw [List.pairwise_append]
      refine ⟨h.increasing, List.pairwise_singleton _ _, ?_⟩
      intro a ha b hb
      obtain ⟨r, hr, rfl⟩ := List.mem_map.1 ha
      simp only [List.mem_singleton] at hb
      subst hb
      exact h.below r hr
    · intro r hr
      simp only [List.mem_append, List.mem_singleton] at hr ⊢
      rcases hr with hr | rfl
      · exact Or.inl (h.inflight_sub r hr)
      · exact Or.inr rfl
    · intro cb hcb
      simp only [List.mem_append, List.mem_singleton]
      exact Or.inl (h.delivered_sub cb hcb)
    · intro r hr
      simp only [List.mem_append, List.mem_singleton] at hr ⊢
      rcases hr with hr | rfl
      · rcases h.accounted r hr with h1 | h1
        · exact Or.inl (Or.inl h1)
        · exact Or.inr h1
      · exact Or.inl (Or.inr rfl)
    · exact h.once
    · intro r hr
      simp only [List.mem_append, List.mem_singleton] at hr
      rcases hr with hr | rfl
      · exact h.apart r hr
      · intro hmem
        obtain ⟨cb, hcb, hid⟩ := List.mem_map.1 hmem
        have := h.below _ (h.delivered_sub cb hcb)
        simp only [Callback.request] at this
        simp only at hid
        omega
  · rw [submit_not_live c op hl]
    exact h

theorem inv_release {c : Correlator} (h : Inv c) : Inv (release c) := by
  unfold release
  split
  · exact ⟨h.below, h.increasing, h.inflight_sub, h.delivered_sub, h.accounted, h.once, h.apart⟩
  · exact h

theorem inv_complete {c : Correlator} (h : Inv c) (id : Nat) (e : Int) :
    Inv (complete c id e) := by
  unfold complete
  split
  · exact h
  · rename_i r hfind
    have hrin : r ∈ c.inflight := List.mem_of_find?_eq_some hfind
    have hrid : r.requestId = id := by
      have := List.find?_some hfind
      simpa using this
    constructor
    · exact h.below
    · exact h.increasing
    · intro r' hr'
      exact h.inflight_sub r' (List.mem_filter.1 hr').1
    · intro cb hcb
      simp only [List.mem_append, List.mem_singleton] at hcb
      rcases hcb with hcb | rfl
      · exact h.delivered_sub cb hcb
      · have := h.inflight_sub r hrin
        simp only [Callback.request]
        rw [← hrid]
        exact this
    · intro r' hr'
      by_cases hid : r'.requestId = id
      · right
        refine ⟨⟨r.operation, id, e⟩, by simp, ?_⟩
        have : r = r' := h.same_id (h.inflight_sub r hrin) hr' (by rw [hrid, hid])
        subst this
        simp only [Callback.request]
        rw [← hrid]
      · rcases h.accounted r' hr' with h1 | ⟨cb, hcb, hcbr⟩
        · left
          simp only [List.mem_filter]
          exact ⟨h1, by simpa using hid⟩
        · right
          exact ⟨cb, by simp [hcb], hcbr⟩
    · simp only [Correlator.deliveredIds, List.map_append, List.map_cons, List.map_nil]
      rw [List.nodup_append]
      refine ⟨h.once, List.nodup_singleton _, ?_⟩
      intro a ha hb
      simp only [List.mem_singleton] at hb
      subst hb
      have := h.apart r hrin
      rw [hrid] at this
      exact this ha
    · intro r' hr'
      obtain ⟨hin, hne⟩ := List.mem_filter.1 hr'
      simp only [Correlator.deliveredIds, List.map_append, List.map_cons, List.map_nil,
        List.mem_append, List.mem_singleton]
      rintro (hmem | heq)
      · exact h.apart r' hin hmem
      · simp [heq] at hne

theorem inv_step {c : Correlator} (h : Inv c) (s : Step) : Inv (step c s) := by
  cases s with
  | submit op => exact inv_submit h op
  | complete id e => exact inv_complete h id e
  | release => exact inv_release h

theorem inv_run (steps : List Step) : ∀ {c : Correlator}, Inv c → Inv (run c steps) := by
  induction steps with
  | nil => intro c h; exact h
  | cons s rest ih => intro c h; exact ih (inv_step h s)

theorem run_submitted (steps : List Step) :
    ∀ c : Correlator, (run c steps).submitted = c.submitted ++ returned c steps := by
  induction steps with
  | nil => intro c; simp [run, returned]
  | cons s rest ih =>
    intro c
    cases s with
    | submit op =>
      have := ih (submit c op).2
      simp only [run, List.foldl_cons, step] at this ⊢
      rw [this]
      by_cases h : c.handle = .live
      · simp [returned, submit_live c op h]
      · simp [returned, submit_not_live c op h]
    | complete id e =>
      have := ih (complete c id e)
      simp only [run, List.foldl_cons, step] at this ⊢
      rw [this, complete_submitted]
      simp [returned]
    | release =>
      have := ih (release c)
      simp only [run, List.foldl_cons, step] at this ⊢
      rw [this]
      have hs : (release c).submitted = c.submitted := by
        unfold release
        split <;> rfl
      rw [hs]
      simp [returned]

theorem complete_inflight (c : Correlator) (id : Nat) (e : Int) :
    (∀ r ∈ (complete c id e).inflight, r ∈ c.inflight ∧ r.requestId ≠ id) := by
  intro r hr
  unfold complete at hr
  split at hr
  · rename_i hnone
    refine ⟨hr, ?_⟩
    have := List.find?_eq_none.1 hnone r hr
    simpa using this
  · obtain ⟨hin, hne⟩ := List.mem_filter.1 hr
    exact ⟨hin, by simpa using hne⟩

/-- Answering the ids of a list one after the other keeps the invariant and the submitted
requests, and leaves in flight only requests whose id is not in the list. -/
theorem answer_all (outcome : Nat → Int) (ids : List Nat) :
    ∀ c : Correlator,
      ((ids.foldl (fun c id => complete c id (outcome id)) c).submitted = c.submitted) ∧
      (Inv c → Inv (ids.foldl (fun c id => complete c id (outcome id)) c)) ∧
      (∀ r ∈ (ids.foldl (fun c id => complete c id (outcome id)) c).inflight,
        r ∈ c.inflight ∧ r.requestId ∉ ids) := by
  induction ids with
  | nil => intro c; simp
  | cons id rest ih =>
    intro c
    obtain ⟨h1, h2, h3⟩ := ih (complete c id (outcome id))
    simp only [List.foldl_cons]
    refine ⟨?_, ?_, ?_⟩
    · rw [h1, complete_submitted]
    · intro h
      exact h2 (inv_complete h id (outcome id))
    · intro r hr
      obtain ⟨hin, hnot⟩ := h3 r hr
      obtain ⟨hin', hne⟩ := complete_inflight c id (outcome id) r hin
      refine ⟨hin', ?_⟩
      simp only [List.mem_cons, not_or]
      exact ⟨hne, hnot⟩

theorem drain_submitted (c : Correlator) (outcome : Nat → Int) :
    (drain c outcome).submitted = c.submitted :=
  (answer_all outcome _ c).1

theorem inv_drain {c : Correlator} (h : Inv c) (outcome : Nat → Int) : Inv (drain c outcome) :=
  (answer_all outcome _ c).2.1 h

theorem drain_inflight (c : Correlator) (outcome : Nat → Int) :
    (drain c outcome).inflight = [] := by
  apply List.eq_nil_iff_forall_not_mem.2
  intro r hr
  obtain ⟨hin, hnot⟩ := (answer_all outcome _ c).2.2 r hr
  exact hnot (List.mem_map_of_mem _ hin)

/-- In a state that satisfies the invariant, a submitted request that is no longer in flight
has exactly one callback, and no id has more than one. -/
theorem Inv.count_le_one {c : Correlator} (h : Inv c) (id : Nat) :
    c.deliveredIds.count id ≤ 1 :=
  List.nodup_iff_count_le_one.1 h.once id

theorem Inv.count_eq_one {c : Correlator} (h : Inv c) {r : Request} (hr : r ∈ c.submitted)
    (hnot : r ∉ c.inflight) :
    c.deliveredIds.count r.requestId = 1 ∧ ∃ cb ∈ c.delivered, cb.request = r := by
  rcases h.accounted r hr with h1 | ⟨cb, hcb, hcbr⟩
  · exact absurd h1 hnot
  · refine ⟨?_, cb, hcb, hcbr⟩
    apply List.count_eq_one_of_mem h.once
    have : cb.requestId = r.requestId := by rw [← hcbr]; rfl
    rw [← this]
    exact List.mem_map_of_mem _ hcb

theorem dispatchAll_append (h : Handler) (ds₁ ds₂ : List Delivery) :
    dispatchAll h (ds₁ ++ ds₂) = dispatchAll h ds₁ ++ dispatchAll h ds₂ := by
  simp [dispatchAll]

theorem dispatchAll_cons (h : Handler) (d : Delivery) (ds : List Delivery) :
    dispatchAll h (d :: ds) = (dispatch h d).toList ++ dispatchAll h ds := by
  cases hd : dispatch h d <;> simp [dispatchAll, List.filterMap_cons, hd]

theorem written_key (req : WriteRequest) (rev : Int) (old : Option MetadataItem)
    (new : MetadataItem) : (written req rev old new).key = new.key := rfl

theorem written_revision (req : WriteRequest) (rev : Int) (old : Option MetadataItem)
    (new : MetadataItem) : (written req rev old new).revision = rev := rfl

theorem lookup_key {m : Metadata} {key : String} {item : MetadataItem}
    (h : m.lookup key = some item) : item.key = key := by
  have := List.find?_some h
  simpa using this

theorem lookup_mem {m : Metadata} {key : String} {item : MetadataItem}
    (h : m.lookup key = some item) : item ∈ m.items :=
  List.mem_of_find?_eq_some h

theorem lookup_eq_none_iff (m : Metadata) (key : String) :
    m.lookup key = none ↔ m.lists key = false := by
  simp [Metadata.lookup, Metadata.lists, List.any_eq_false]

theorem lists_iff_mem (m : Metadata) (key : String) :
    m.lists key = true ↔ ∃ item ∈ m.items, item.key = key := by
  simp [Metadata.lists, List.any_eq_true]

theorem rewritten_key (m : Metadata) (req : WriteRequest) (o : MetadataItem) :
    (rewritten m req o).key = o.key := by
  unfold rewritten
  split
  · rename_i n hn
    rw [written_key]
    exact lookup_key hn
  · rfl

theorem rewritten_unlisted (m : Metadata) (req : WriteRequest) (o : MetadataItem)
    (h : req.data.lists o.key = false) : rewritten m req o = o := by
  unfold rewritten
  rw [(lookup_eq_none_iff _ _).2 h]

theorem rewritten_listed (m : Metadata) (req : WriteRequest) (o : MetadataItem)
    (h : req.data.lists o.key = true) :
    (rewritten m req o).revision = m.majorRevision + 1 := by
  unfold rewritten
  split
  · rfl
  · rename_i hn
    rw [(lookup_eq_none_iff _ _).1 hn] at h
    simp at h

theorem apply_update (m : Metadata) (req : WriteRequest) (hk : req.kind = .update) :
    m.apply req =
      { majorRevision := m.majorRevision + 1
        items := m.items.map (rewritten m req) ++
          (req.data.items.filter fun n => !m.lists n.key).map fun n =>
            written req (m.majorRevision + 1) none n } := by
  simp only [Metadata.apply, hk]

theorem apply_majorRevision (m : Metadata) (req : WriteRequest) :
    (m.apply req).majorRevision = m.majorRevision + 1 := by
  unfold Metadata.apply
  split <;> rfl

theorem find_map_rewritten (m : Metadata) (req : WriteRequest) (key : String)
    (items : List MetadataItem) :
    (items.map (rewritten m req)).find? (fun item => item.key == key) =
      (items.find? fun item => item.key == key).map (rewritten m req) := by
  induction items with
  | nil => rfl
  | cons o rest ih =>
    simp only [List.map_cons, List.find?_cons, rewritten_key]
    split
    · rfl
    · exact ih

/-- What an update leaves under a key: the rewriting of the item stored under it, or the
first written item with that key when nothing was stored under it. -/
theorem lookup_update (m : Metadata) (req : WriteRequest) (hk : req.kind = .update)
    (key : String) :
    (m.apply req).lookup key =
      ((m.lookup key).map (rewritten m req)).or
        (((req.data.items.filter fun n => !m.lists n.key).map fun n =>
          written req (m.majorRevision + 1) none n).find? fun item => item.key == key) := by
  rw [apply_update m req hk]
  simp only [Metadata.lookup, List.find?_append, find_map_rewritten]

/-- Every item a write leaves in the container was there before, unchanged, or carries the
new major revision. -/
theorem apply_items (m : Metadata) (req : WriteRequest) :
    ∀ item ∈ (m.apply req).items,
      item ∈ m.items ∨ item.revision = m.majorRevision + 1 := by
  intro item hitem
  cases hk : req.kind with
  | set =>
    simp only [Metadata.apply, hk, List.mem_map] at hitem
    obtain ⟨n, _, rfl⟩ := hitem
    exact Or.inr rfl
  | update =>
    rw [apply_update m req hk] at hitem
    simp only [List.mem_append, List.mem_map] at hitem
    rcases hitem with ⟨o, ho, rfl⟩ | ⟨n, _, rfl⟩
    · cases hl : req.data.lists o.key
      · rw [rewritten_unlisted m req o hl]
        exact Or.inl ho
      · exact Or.inr (rewritten_listed m req o hl)
    · exact Or.inr rfl
  | remove =>
    simp only [Metadata.apply, hk] at hitem
    exact Or.inl (List.mem_filter.1 hitem).1

theorem apply_wellFormed {m : Metadata} (h : m.WellFormed) (req : WriteRequest) :
    (m.apply req).WellFormed := by
  constructor
  · intro item hitem
    rw [apply_majorRevision]
    rcases apply_items m req item hitem with hin | hrev
    · have := h.1 item hin
      omega
    · omega
  · intro i hi j hj hkey
    cases hk : req.kind with
    | set =>
      simp only [Metadata.apply, hk, List.mem_map] at hi hj
      obtain ⟨_, _, rfl⟩ := hi
      obtain ⟨_, _, rfl⟩ := hj
      rfl
    | update =>
      rw [apply_update m req hk] at hi hj
      simp only [List.mem_append, List.mem_map, List.mem_filter] at hi hj
      have stamped : ∀ n ∈ req.data.items, req.data.lists n.key = true := by
        intro n hn
        exact (lists_iff_mem _ _).2 ⟨n, hn, rfl⟩
      rcases hi with ⟨o, ho, rfl⟩ | ⟨n, ⟨hn, _⟩, rfl⟩
      · rcases hj with ⟨o', ho', rfl⟩ | ⟨n', ⟨hn', _⟩, rfl⟩
        · rw [rewritten_key, rewritten_key] at hkey
          cases hl : req.data.lists o.key
          · have hl' : req.data.lists o'.key = false := by rw [← hkey]; exact hl
            rw [rewritten_unlisted m req o hl, rewritten_unlisted m req o' hl']
            exact h.2 o ho o' ho' hkey
          · have hl' : req.data.lists o'.key = true := by rw [← hkey]; exact hl
            rw [rewritten_listed m req o hl, rewritten_listed m req o' hl']
        · rw [rewritten_key, written_key] at hkey
          have hl : req.data.lists o.key = true := by rw [hkey]; exact stamped n' hn'
          rw [rewritten_listed m req o hl, written_revision]
      · rcases hj with ⟨o', ho', rfl⟩ | ⟨n', ⟨hn', _⟩, rfl⟩
        · rw [rewritten_key, written_key] at hkey
          have hl : req.data.lists o'.key = true := by rw [← hkey]; exact stamped n hn
          rw [rewritten_listed m req o' hl, written_revision]
        · rfl
    | remove =>
      simp only [Metadata.apply, hk] at hi hj
      exact h.2 i (List.mem_filter.1 hi).1 j (List.mem_filter.1 hj).1 hkey

theorem notAhead_self {m : Metadata} (h : m.WellFormed) : m.NotAhead m :=
  ⟨Int.le_refl _, fun i hi j hj hkey => Int.le_of_eq (h.2 i hi j hj hkey)⟩

/-- A well-formed container that is not ahead of the store is not ahead of it after the
next write either. -/
theorem notAhead_apply {e m : Metadata} (he : e.WellFormed) (h : e.NotAhead m)
    (req : WriteRequest) : e.NotAhead (m.apply req) := by
  constructor
  · rw [apply_majorRevision]
    have := h.1
    omega
  · intro i hi j hj hkey
    rcases apply_items m req j hj with hin | hrev
    · exact h.2 i hi j hin hkey
    · have h1 := he.1 i hi
      have h2 := h.1
      omega

theorem write_metadata (s : Storage) (locks : List Lock) (req : WriteRequest) :
    (s.write locks req).2.metadata =
      if permitted locks req then s.metadata.apply req else s.metadata := by
  unfold Storage.write
  split <;> rfl

theorem storageInv_empty : StorageInv Storage.empty := by
  constructor <;> simp [Storage.empty, Metadata.WellFormed]

theorem storageInv_write {s : Storage} (h : StorageInv s) (locks : List Lock)
    (req : WriteRequest) : StorageInv (s.write locks req).2 := by
  unfold Storage.write
  split
  · have hwf := apply_wellFormed h.wellFormed req
    constructor
    · exact hwf
    · intro e he
      simp only [List.mem_append, List.mem_singleton] at he
      rcases he with he | rfl
      · exact ⟨(h.events_behind e he).1,
          notAhead_apply (h.events_behind e he).1 (h.events_behind e he).2 req⟩
      · exact ⟨hwf, notAhead_self hwf⟩
    · simp only
      rw [List.pairwise_append]
      refine ⟨h.events_ordered, List.pairwise_singleton _ _, ?_⟩
      intro e he e' he'
      simp only [List.mem_singleton] at he'
      subst he'
      exact notAhead_apply (h.events_behind e he).1 (h.events_behind e he).2 req
    · simp only
      rw [apply_majorRevision]
      have := h.nonneg
      omega
  · exact h

theorem storageInv_run (writes : List (List Lock × WriteRequest)) :
    ∀ {s : Storage}, StorageInv s → StorageInv (s.run writes) := by
  induction writes with
  | nil => intro s h; exact h
  | cons w rest ih => intro s h; exact ih (storageInv_write h w.1 w.2)

theorem run_append (s : Storage) (ws₁ ws₂ : List (List Lock × WriteRequest)) :
    s.run (ws₁ ++ ws₂) = (s.run ws₁).run ws₂ := by
  simp [Storage.run]

/-- A well-formed container that is not ahead of the store stays so along any writes. -/
theorem notAhead_run (writes : List (List Lock × WriteRequest)) :
    ∀ {s : Storage} {e : Metadata}, e.WellFormed → e.NotAhead s.metadata →
      e.NotAhead (s.run writes).metadata := by
  induction writes with
  | nil => intro s e _ h; exact h
  | cons w rest ih =>
    intro s e he h
    apply ih (s := (s.write w.1 w.2).2) he
    rw [write_metadata]
    split
    · exact notAhead_apply he h w.2
    · exact h

theorem majorRevision_run_le (writes : List (List Lock × WriteRequest)) :
    ∀ s : Storage, (s.run writes).metadata.majorRevision ≤
      s.metadata.majorRevision + writes.length := by
  induction writes with
  | nil => intro s; simp [Storage.run]
  | cons w rest ih =>
    intro s
    have h1 := ih (s.write w.1 w.2).2
    have h2 : (s.write w.1 w.2).2.metadata.majorRevision ≤ s.metadata.majorRevision + 1 := by
      rw [write_metadata]
      split
      · rw [apply_majorRevision]
      · omega
    simp only [Storage.run, List.foldl_cons, List.length_cons] at h1 ⊢
    push_cast
    omega

/-! ## Lemmas about default arguments -/

/-- A call that writes an argument for every parameter binds each parameter to its
argument. -/
theorem bindArguments_full (ps : List CxxParam) :
    ∀ args : List String, args.length = ps.length →
      bindArguments ps args = some ((ps.map CxxParam.name).zip args) := by
  induction ps with
  | nil =>
    intro args h
    cases args with
    | nil => rfl
    | cons a rest => simp at h
  | cons p ps ih =>
    intro args h
    cases args with
    | nil => simp at h
    | cons a rest =>
      simp only [List.length_cons, Nat.add_right_cancel_iff] at h
      simp [bindArguments, ih rest h]

/-- A call that leaves out the last argument, when the last parameter has a default, binds
as the call that writes the default there. -/
theorem bindArguments_omit_last (front : List CxxParam) (p : CxxParam) (d : String)
    (hd : p.defaultArg = some d) :
    ∀ args : List String, args.length = front.length →
      bindArguments (front ++ [p]) args = bindArguments (front ++ [p]) (args ++ [d]) := by
  induction front with
  | nil =>
    intro args h
    cases args with
    | nil => simp [bindArguments, hd]
    | cons a rest => simp at h
  | cons q qs ih =>
    intro args h
    cases args with
    | nil => simp at h
    | cons a rest =>
      simp only [List.length_cons, Nat.add_right_cancel_iff] at h
      have := ih rest h
      show Option.map _ (bindArguments (qs ++ [p]) rest) =
        Option.map _ (bindArguments (qs ++ [p]) (rest ++ [d]))
      rw [this]

/-- Every parameter with a default argument is the last parameter of its method. -/
theorem defaulted_is_last :
    ∀ mp ∈ defaultedParams, mp.1.params = mp.1.params.dropLast ++ [mp.2] := by
  decide

/-! ## Statements about the declarations -/

/-- C3: every declared function that hands back a request id through an out-parameter has
a result slot in `C_IRtmEventHandler`: a member named `on...Result` that takes the request
id. -/
theorem submission_has_result_slot (f : FunDecl) (hf : f ∈ declaredFunctions)
    (hs : f.isSubmission = true) :
    ∃ s ∈ C_IRtmEventHandler, resultSlot f = some s ∧ s.isResult = true ∧
      requestIdIn ∈ s.params := by
  revert f
  decide

/-- The statement of C3 at the history query, whose slot is not named after the function alone. -/
theorem submission_has_result_slot_witness :
    ∃ s ∈ C_IRtmEventHandler, resultSlot agora_rtm_history_get_messages = some s ∧
      s.isResult = true ∧ requestIdIn ∈ s.params :=
  submission_has_result_slot agora_rtm_history_get_messages (by decide) (by decide)

/-- C4, as stated, fails: `agora_rtm_lock_acquire_lock`, `agora_rtm_storage_set_channel_metadata`
and `agora_rtm_stream_channel_join` hand back a request id and are declared `void`, so not
every submission function returns an `int`. -/
theorem submission_not_always_int :
    ¬ (∀ f ∈ declaredFunctions, f.isSubmission = true → f.ret = "int") ∧
      agora_rtm_lock_acquire_lock.isSubmission = true ∧
      agora_rtm_lock_acquire_lock.ret = "void" ∧
      agora_rtm_storage_set_channel_metadata.ret = "void" ∧
      agora_rtm_stream_channel_join.ret = "void" := by
  decide

/-- C4, amended: a submission function of the client, presence or history handle is declared
`int` and documented to return 0 or a negative value; a submission function of the lock,
storage or stream-channel handle is declared `void` and documents no return value. -/
theorem submission_return_by_handle (f : FunDecl) (hf : f ∈ declaredFunctions)
    (hs : f.isSubmission = true) :
    ((f.api = .client ∨ f.api = .presence ∨ f.api = .history) →
        f.ret = "int" ∧ f.returnDoc = some zeroOrNegativeDoc) ∧
    ((f.api = .lock ∨ f.api = .storage ∨ f.api = .streamChannel) →
        f.ret = "void" ∧ f.returnDoc = none) := by
  revert f
  decide

/-- The amended statement of C4 at the lock acquisition. -/
theorem submission_return_by_handle_witness :
    ((agora_rtm_lock_acquire_lock.api = .client ∨ agora_rtm_lock_acquire_lock.api = .presence ∨
        agora_rtm_lock_acquire_lock.api = .history) →
        agora_rtm_lock_acquire_lock.ret = "int" ∧
          agora_rtm_lock_acquire_lock.returnDoc = some zeroOrNegativeDoc) ∧
    ((agora_rtm_lock_acquire_lock.api = .lock ∨ agora_rtm_lock_acquire_lock.api = .storage ∨
        agora_rtm_lock_acquire_lock.api = .streamChannel) →
        agora_rtm_lock_acquire_lock.ret = "void" ∧
          agora_rtm_lock_acquire_lock.returnDoc = none) :=
  submission_return_by_handle agora_rtm_lock_acquire_lock (by decide) (by decide)

/-- C5: `IRtmHistory::getMessages` is documented to return 0 or a negative value, and its C
binding is declared `int` with the same documentation, but the method itself is declared
`void`: it returns nothing. -/
theorem getMessages_declared_void :
    IRtmHistory_getMessages.returnDoc = some zeroOrNegativeDoc ∧
      IRtmHistory_getMessages.ret = "void" ∧
      agora_rtm_history_get_messages.ret = "int" ∧
      agora_rtm_history_get_messages.returnDoc = some zeroOrNegativeDoc := by
  decide

/-- C8: every `on...Result` member of `C_IRtmEventHandler` takes a `const uint64_t requestId`
and an `enum C_RTM_ERROR_CODE errorCode`. -/
theorem result_slot_takes_requestId_and_errorCode (s : SlotDecl)
    (hs : s ∈ C_IRtmEventHandler) (hr : s.isResult = true) :
    requestIdIn ∈ s.params ∧ errorCodeIn ∈ s.params := by
  revert s
  decide

/-- The statement of C8 at the lock acquisition result. -/
theorem result_slot_takes_requestId_and_errorCode_witness :
    requestIdIn ∈ onAcquireLockResult.params ∧ errorCodeIn ∈ onAcquireLockResult.params :=
  result_slot_takes_requestId_and_errorCode onAcquireLockResult (by decide) (by decide)

/-- C9: for each of the six kinds of event, the members of `C_IRtmEventHandler` that take the
kind's event struct are exactly one, the member named after the kind; the table lists no
member twice. -/
theorem event_kind_has_one_slot (k : EventKind) :
    C_IRtmEventHandler.filter (fun s => s.takesStruct k.struct) = [k.slot] ∧
      (C_IRtmEventHandler.map SlotDecl.name).Nodup := by
  cases k <;> decide

/-- C10: none of the six event callbacks has a parameter named `requestId`, and neither the
event struct it receives nor a struct nested in it has a field named `requestId`. -/
theorem event_carries_no_requestId (k : EventKind) :
    k.slot.isEvent = true ∧ hasName k.slot.params "requestId" = false ∧
      hasName k.struct.fields "requestId" = false ∧
      ∀ st ∈ k.nested, hasName st.fields "requestId" = false := by
  cases k <;> decide

/-- C12: fifteen of the sixteen value structs have a `_New` and a `_Delete` function, and so
has the handler table; `C_GetHistoryMessagesOptions` has neither, and no declared function
carries its name. -/
theorem history_options_lack_lifecycle :
    hasNew C_GetHistoryMessagesOptions = false ∧
      hasDelete C_GetHistoryMessagesOptions = false ∧
      (∀ f ∈ lifecycleFunctions,
        f.name ≠ "C_GetHistoryMessagesOptions_New" ∧
          f.name ≠ "C_GetHistoryMessagesOptions_Delete") ∧
      (∀ st ∈ valueStructs, st ≠ C_GetHistoryMessagesOptions →
        hasNew st = true ∧ hasDelete st = true) ∧
      C_GetHistoryMessagesOptions ∈ valueStructs ∧
      lifecycleFunctions.length = 2 * (valueStructs.length - 1) + 2 := by
  decide

/-! ## Statements about the correlator -/

/-- C1: in every session, whatever the order of its submissions, answers and release, the
request ids handed back by the submissions are pairwise distinct and none is zero; each is at
most the number of steps taken, so it fits the `uint64_t` out-parameter in any session of
fewer than `2 ^ 64` steps. -/
theorem requestIds_nonzero_and_distinct (steps : List Step) :
    (returnedIds Correlator.create steps).Nodup ∧
      ∀ id ∈ returnedIds Correlator.create steps, id ≠ 0 ∧ id ≤ steps.length := by
  obtain ⟨hb, hp⟩ := returned_bounds steps Correlator.create
  refine ⟨hp.imp (fun hlt => Nat.ne_of_lt hlt), ?_⟩
  intro id hid
  obtain ⟨r, hr, rfl⟩ := List.mem_map.1 hid
  have := hb r hr
  simp only [Correlator.create] at this
  omega

/-- The statement of C1 on the sample session, whose submissions hand back 1 and 2. -/
theorem requestIds_nonzero_and_distinct_witness :
    returnedIds Correlator.create sampleSession = [1, 2] ∧
      (returnedIds Correlator.create sampleSession).Nodup ∧
      ∀ id ∈ returnedIds Correlator.create sampleSession, id ≠ 0 ∧ id ≤ sampleSession.length :=
  ⟨by decide, requestIds_nonzero_and_distinct sampleSession⟩

/-- C2: in every session each request that a submission handed back has at most one terminal
callback at any time, and once the transport has answered everything in flight it has exactly
one, fired for the same function with the same request id; no callback is fired for a request
that was not submitted. -/
theorem exactly_one_terminal_callback (steps : List Step) (outcome : Nat → Int) :
    (∀ r ∈ returned Correlator.create steps,
      (run Correlator.create steps).deliveredIds.count r.requestId ≤ 1 ∧
      (drain (run Correlator.create steps) outcome).deliveredIds.count r.requestId = 1 ∧
      ∃ cb ∈ (drain (run Correlator.create steps) outcome).delivered, cb.request = r) ∧
    (∀ cb ∈ (drain (run Correlator.create steps) outcome).delivered,
      cb.request ∈ returned Correlator.create steps) := by
  have hrun : Inv (run Correlator.create steps) := inv_run steps inv_create
  have hdr : Inv (drain (run Correlator.create steps) outcome) := inv_drain hrun outcome
  have hsub : (drain (run Correlator.create steps) outcome).submitted =
      returned Correlator.create steps := by
    rw [drain_submitted, run_submitted]
    simp [Correlator.create]
  constructor
  · intro r hr
    have hr' : r ∈ (drain (run Correlator.create steps) outcome).submitted := by
      rw [hsub]; exact hr
    have hnot : r ∉ (drain (run Correlator.create steps) outcome).inflight := by
      rw [drain_inflight]; simp
    exact ⟨hrun.count_le_one _, hdr.count_eq_one hr' hnot⟩
  · intro cb hcb
    rw [← hsub]
    exact hdr.delivered_sub cb hcb

/-- The statement of C2 on the sample session: the second answer for request 2 fires nothing,
and the transport's answer for request 1 arrives after the release. -/
theorem exactly_one_terminal_callback_witness :
    (run Correlator.create sampleSession).deliveredIds = [2] ∧
      (drain (run Correlator.create sampleSession) (fun _ => 0)).delivered =
        [⟨agora_rtm_lock_acquire_lock, 2, -1⟩, ⟨agora_rtm_client_publish, 1, 0⟩] ∧
      ((∀ r ∈ returned Correlator.create sampleSession,
        (run Correlator.create sampleSession).deliveredIds.count r.requestId ≤ 1 ∧
        (drain (run Correlator.create sampleSession) (fun _ => 0)).deliveredIds.count
          r.requestId = 1 ∧
        ∃ cb ∈ (drain (run Correlator.create sampleSession) (fun _ => 0)).delivered,
          cb.request = r) ∧
      (∀ cb ∈ (drain (run Correlator.create sampleSession) (fun _ => 0)).delivered,
        cb.request ∈ returned Correlator.create sampleSession)) :=
  ⟨by decide, by decide, exactly_one_terminal_callback sampleSession (fun _ => 0)⟩

/-- C7: the request ids of a session are handed back in strictly increasing order; an id
handed back after any point of the session is larger than every id allocated before that
point, and so differs from the id of every request already answered. -/
theorem requestIds_increase_and_are_not_reused (steps later : List Step) :
    (returnedIds Correlator.create (steps ++ later)).Pairwise (· < ·) ∧
      (∀ id ∈ (run Correlator.create steps).allocated,
        ∀ id' ∈ returnedIds (run Correlator.create steps) later, id < id') ∧
      (∀ id ∈ (run Correlator.create steps).deliveredIds,
        id ∉ returnedIds (run Correlator.create steps) later) := by
  have hrun : Inv (run Correlator.create steps) := inv_run steps inv_create
  have hlater := (returned_bounds later (run Correlator.create steps)).1
  have key : ∀ id ∈ (run Correlator.create steps).allocated,
      ∀ id' ∈ returnedIds (run Correlator.create steps) later, id < id' := by
    intro id hid id' hid'
    obtain ⟨r, hr, rfl⟩ := List.mem_map.1 hid
    obtain ⟨r', hr', rfl⟩ := List.mem_map.1 hid'
    have h1 := hrun.below r hr
    have h2 := (hlater r' hr').1
    omega
  refine ⟨(returned_bounds (steps ++ later) Correlator.create).2, key, ?_⟩
  intro id hid hmem
  obtain ⟨cb, hcb, rfl⟩ := List.mem_map.1 hid
  have hsub := hrun.delivered_sub cb hcb
  have : cb.requestId ∈ (run Correlator.create steps).allocated :=
    List.mem_map.2 ⟨cb.request, hsub, rfl⟩
  exact Nat.lt_irrefl _ (key _ this _ hmem)

/-- The statement of C7 on the sample session followed by two submissions on a session that
was not released: request 2 is answered, and the later ids are 3 and 4. -/
theorem requestIds_increase_and_are_not_reused_witness :
    returnedIds Correlator.create
        (sampleSession.take 4 ++ [.submit agora_rtm_client_login, .submit agora_rtm_client_logout])
      = [1, 2, 3, 4] ∧
      (run Correlator.create (sampleSession.take 4)).deliveredIds = [2] ∧
      ∀ id ∈ (run Correlator.create (sampleSession.take 4)).deliveredIds,
        id ∉ returnedIds (run Correlator.create (sampleSession.take 4))
          [.submit agora_rtm_client_login, .submit agora_rtm_client_logout] :=
  ⟨by decide, by decide,
   (requestIds_increase_and_are_not_reused (sampleSession.take 4)
      [.submit agora_rtm_client_login, .submit agora_rtm_client_logout]).2.2⟩

/-- C19: in the example session the login is handed request id 1 and answered on
`onLoginResult` with id 1 and error code 0, the logout that follows is handed request id 2 and
answered on `onLogoutResult` with id 2 and error code 0, and after the release every further
submission fails at once with the invocation error and changes nothing. -/
theorem example_session :
    returned Correlator.create exampleSession =
        [⟨1, agora_rtm_client_login⟩, ⟨2, agora_rtm_client_logout⟩] ∧
      (run Correlator.create (exampleSession.take 2)).delivered =
        [⟨agora_rtm_client_login, 1, 0⟩] ∧
      (run Correlator.create exampleSession).delivered =
        [⟨agora_rtm_client_login, 1, 0⟩, ⟨agora_rtm_client_logout, 2, 0⟩] ∧
      (run Correlator.create exampleSession).delivered.map Callback.slot =
        [some onLoginResult, some onLogoutResult] ∧
      (run Correlator.create exampleSession).handle = .released ∧
      ∀ op : FunDecl,
        submit (run Correlator.create exampleSession) op =
          (.error .invocationError, run Correlator.create exampleSession) := by
  refine ⟨by decide, by decide, by decide, by decide, by decide, ?_⟩
  intro op
  exact submit_not_live _ op (by decide)

/-- C20: at any point of any session a submission fires no callback: the callbacks delivered
are the same before and after the call, the request id it hands back has no callback yet, and
the request is in flight. -/
theorem no_callback_inside_submit (steps : List Step) (op : FunDecl) :
    (submit (run Correlator.create steps) op).2.delivered =
        (run Correlator.create steps).delivered ∧
      ∀ id, (submit (run Correlator.create steps) op).1 = .ok id →
        id ∉ (submit (run Correlator.create steps) op).2.deliveredIds ∧
        (⟨id, op⟩ : Request) ∈ (submit (run Correlator.create steps) op).2.inflight := by
  have hrun : Inv (run Correlator.create steps) := inv_run steps inv_create
  by_cases h : (run Correlator.create steps).handle = .live
  · rw [submit_live _ op h]
    refine ⟨rfl, ?_⟩
    intro id hid
    simp only [Except.ok.injEq] at hid
    subst hid
    refine ⟨?_, by simp⟩
    intro hmem
    simp only [Correlator.deliveredIds] at hmem
    obtain ⟨cb, hcb, hcbid⟩ := List.mem_map.1 hmem
    have := hrun.below _ (hrun.delivered_sub cb hcb)
    simp only [Callback.request] at this
    omega
  · rw [submit_not_live _ op h]
    refine ⟨rfl, ?_⟩
    intro id hid
    simp at hid

/-! ## Statements about the dispatcher, the metadata store and the locks -/

/-- C11: a delivery, event or result, whose member of the handler table is unbound invokes
nothing, and the calls made for the deliveries around it are the same as if it had not been
dispatched; a dispatch produces nothing but calls, so no error is reported.  A delivery for a
bound member is handed to it. -/
theorem unbound_slot_is_silent (h : Handler) (d : Delivery) (before after : List Delivery)
    (hd : ∀ s, d.slot = some s → s ∉ h.bound) :
    dispatch h d = none ∧
      dispatchAll h (before ++ d :: after) = dispatchAll h (before ++ after) ∧
      ∀ d' s, d'.slot = some s → s ∈ h.bound → dispatch h d' = some d' := by
  have hnone : dispatch h d = none := by
    unfold dispatch
    split
    · rename_i s hs
      simp [hd s hs]
    · rfl
  refine ⟨hnone, ?_, ?_⟩
  · rw [dispatchAll_append, dispatchAll_cons, hnone, dispatchAll_append]
    simp
  · intro d' s hs hb
    unfold dispatch
    rw [hs]
    simp [hb]

/-- The statement of C11 for a handler that binds the login result and the message event
only: the presence event and the logout result are dropped, the other two are handed on. -/
theorem unbound_slot_is_silent_witness :
    dispatchAll sampleHandler
        [.event .message, .event .presence, .result ⟨agora_rtm_client_login, 1, 0⟩,
         .result ⟨agora_rtm_client_logout, 2, 0⟩] =
      [.event .message, .result ⟨agora_rtm_client_login, 1, 0⟩] ∧
    dispatch sampleHandler (.event .presence) = none ∧
    dispatchAll sampleHandler
        ([.event .message] ++ .event .presence :: [.result ⟨agora_rtm_client_login, 1, 0⟩]) =
      dispatchAll sampleHandler ([.event .message] ++ [.result ⟨agora_rtm_client_login, 1, 0⟩]) :=
  ⟨by decide,
   (unbound_slot_is_silent sampleHandler (.event .presence) [.event .message]
      [.result ⟨agora_rtm_client_login, 1, 0⟩] (by decide)).1,
   (unbound_slot_is_silent sampleHandler (.event .presence) [.event .message]
      [.result ⟨agora_rtm_client_login, 1, 0⟩] (by decide)).2.1⟩

/-- C13: an update that the store accepts, applied to a well-formed container, raises the
major revision, leaves the item under every key it does not list as it was (value, revision,
author and timestamp), and gives every listed key that was stored a revision above the one
it had. -/
theorem update_changes_only_listed_keys (s : Storage) (locks : List Lock) (req : WriteRequest)
    (hk : req.kind = .update) (hp : permitted locks req = true)
    (hwf : s.metadata.WellFormed) :
    (s.write locks req).1 = .ok () ∧
      s.metadata.majorRevision < (s.write locks req).2.metadata.majorRevision ∧
      (∀ key, req.data.lists key = false →
        (s.write locks req).2.metadata.lookup key = s.metadata.lookup key) ∧
      (∀ key old, req.data.lists key = true → s.metadata.lookup key = some old →
        ∃ new, (s.write locks req).2.metadata.lookup key = some new ∧
          new.value = (req.data.lookup key).map MetadataItem.value ∧
          old.revision < new.revision) := by
  have hw : s.write locks req =
      (.ok (), { metadata := s.metadata.apply req,
                 events := s.events ++ [s.metadata.apply req] }) := by
    simp [Storage.write, hp]
  rw [hw]
  refine ⟨rfl, ?_, ?_, ?_⟩
  · simp only [apply_majorRevision]
    omega
  · intro key hkey
    simp only
    rw [lookup_update _ req hk]
    have hadd : ((req.data.items.filter fun n => !s.metadata.lists n.key).map fun n =>
        written req (s.metadata.majorRevision + 1) none n).find?
          (fun item => item.key == key) = none := by
      rw [List.find?_eq_none]
      intro item hitem
      simp only [List.mem_map, List.mem_filter] at hitem
      obtain ⟨n, ⟨hn, _⟩, rfl⟩ := hitem
      rw [written_key]
      intro heq
      have : n.key = key := by simpa using heq
      have hl : req.data.lists key = true := (lists_iff_mem _ _).2 ⟨n, hn, this⟩
      rw [hl] at hkey
      exact Bool.noConfusion hkey
    rw [hadd]
    cases hlook : s.metadata.lookup key with
    | none => rfl
    | some o =>
      have hokey := lookup_key hlook
      have : rewritten s.metadata req o = o :=
        rewritten_unlisted _ req o (by rw [hokey]; exact hkey)
      simp [this]
  · intro key old hkey hold
    simp only
    rw [lookup_update _ req hk, hold]
    have hokey := lookup_key hold
    refine ⟨rewritten s.metadata req old, rfl, ?_, ?_⟩
    · unfold rewritten
      rw [hokey]
      cases hl : req.data.lookup key with
      | none =>
        rw [(lookup_eq_none_iff _ _).1 hl] at hkey
        exact Bool.noConfusion hkey
      | some n => rfl
    · rw [rewritten_listed _ req old (by rw [hokey]; exact hkey)]
      have := hwf.1 old (lookup_mem hold)
      omega

/-- The statement of C13 for the container with the items A, B and C and an update of A and
B: C keeps its value and revision 3, A and B go from revisions 1 and 2 to 4, and the major
revision goes from 3 to 4. -/
theorem update_changes_only_listed_keys_witness :
    (Storage.write ⟨sampleMetadata, []⟩ [] sampleUpdate).2.metadata =
        ⟨4, [⟨"A", "a1", "carol", 4, 400⟩, ⟨"B", "b1", "carol", 4, 400⟩,
             ⟨"C", "c0", "bob", 3, 300⟩]⟩ ∧
      sampleMetadata.majorRevision <
        (Storage.write ⟨sampleMetadata, []⟩ [] sampleUpdate).2.metadata.majorRevision ∧
      (Storage.write ⟨sampleMetadata, []⟩ [] sampleUpdate).2.metadata.lookup "C" =
        sampleMetadata.lookup "C" :=
  ⟨by decide,
   (update_changes_only_listed_keys ⟨sampleMetadata, []⟩ [] sampleUpdate rfl (by decide)
      (by decide)).2.1,
   (update_changes_only_listed_keys ⟨sampleMetadata, []⟩ [] sampleUpdate rfl (by decide)
      (by decide)).2.2.1 "C" (by decide)⟩

/-- C14: a set that the store accepts leaves exactly the written items: the keys of the
container are the keys of the written data, in the same order and with the written values,
whatever the container held before. -/
theorem set_replaces_item_set (s : Storage) (locks : List Lock) (req : WriteRequest)
    (hk : req.kind = .set) (hp : permitted locks req = true) :
    (s.write locks req).1 = .ok () ∧
      (s.write locks req).2.metadata.keys = req.data.keys ∧
      (s.write locks req).2.metadata.items.map MetadataItem.value =
        req.data.items.map MetadataItem.value ∧
      ∀ key, (s.write locks req).2.metadata.lists key = req.data.lists key := by
  have hw : s.write locks req =
      (.ok (), { metadata := s.metadata.apply req,
                 events := s.events ++ [s.metadata.apply req] }) := by
    simp [Storage.write, hp]
  have hitems : (s.metadata.apply req).items =
      req.data.items.map fun n =>
        written req (s.metadata.majorRevision + 1) (s.metadata.lookup n.key) n := by
    simp only [Metadata.apply, hk]
  rw [hw]
  refine ⟨rfl, ?_, ?_, ?_⟩
  · simp only [Metadata.keys, hitems, List.map_map]
    rfl
  · simp only [hitems, List.map_map]
    rfl
  · intro key
    simp only [Metadata.lists, hitems, List.any_map]
    rfl

/-- The statement of C14 for the container with the items A, B and C and a set of A and B:
the key C is gone. -/
theorem set_replaces_item_set_witness :
    (Storage.write ⟨sampleMetadata, []⟩ [] { sampleUpdate with kind := .set }).2.metadata =
        ⟨4, [⟨"A", "a1", "carol", 4, 400⟩, ⟨"B", "b1", "carol", 4, 400⟩]⟩ ∧
      (Storage.write ⟨sampleMetadata, []⟩ [] { sampleUpdate with kind := .set }).2.metadata.keys =
        ["A", "B"] :=
  ⟨by decide,
   (set_replaces_item_set ⟨sampleMetadata, []⟩ [] { sampleUpdate with kind := .set } rfl
      (by decide)).2.1⟩

/-- C15: along every sequence of writes from an empty container, whatever the locks at each
write, the container at any point is not ahead of the container at a later point (the major
revision has not fallen, and no key has a smaller revision than it had); the same holds
between any storage event and every later one.  The major revision is at most the number of
writes. -/
theorem revisions_never_decrease (before after : List (List Lock × WriteRequest)) :
    Metadata.NotAhead (Storage.empty.run before).metadata
        (Storage.empty.run (before ++ after)).metadata ∧
      (Storage.empty.run (before ++ after)).events.Pairwise Metadata.NotAhead ∧
      0 ≤ (Storage.empty.run before).metadata.majorRevision ∧
      (Storage.empty.run before).metadata.majorRevision ≤ before.length := by
  have hinv : StorageInv (Storage.empty.run before) := storageInv_run before storageInv_empty
  refine ⟨?_, (storageInv_run (before ++ after) storageInv_empty).events_ordered,
    hinv.nonneg, ?_⟩
  · rw [run_append]
    exact notAhead_run after hinv.wellFormed (notAhead_self hinv.wellFormed)
  · have := majorRevision_run_le before Storage.empty
    simpa [Storage.empty] using this

/-- The statement of C15 for three writes that set the key K, remove it and set it again:
the storage events carry K at revision 1, no item, and K at revision 3. -/
theorem revisions_never_decrease_witness :
    (Storage.empty.run sampleWrites).events =
        [⟨1, [⟨"K", "k0", "carol", 1, 10⟩]⟩, ⟨2, []⟩, ⟨3, [⟨"K", "k1", "carol", 3, 30⟩]⟩] ∧
      Metadata.NotAhead (Storage.empty.run (sampleWrites.take 1)).metadata
        (Storage.empty.run (sampleWrites.take 1 ++ sampleWrites.drop 1)).metadata :=
  ⟨by decide, (revisions_never_decrease (sampleWrites.take 1) (sampleWrites.drop 1)).1⟩

/-- C16: a write scoped with a lock fails with the lock-ownership error and leaves the store
as it was when the caller does not hold the named lock; when the caller holds it the write is
accepted and raises the major revision.  The three channel writes take a `lockName`. -/
theorem lock_scoped_write (s : Storage) (locks : List Lock) (req : WriteRequest)
    (name : String) (hn : req.lockName = some name) :
    (heldBy locks name req.caller = false →
        s.write locks req = (.error .lockNotOwned, s)) ∧
      (heldBy locks name req.caller = true →
        (s.write locks req).1 = .ok () ∧
        (s.write locks req).2.metadata = s.metadata.apply req ∧
        s.metadata.majorRevision < (s.write locks req).2.metadata.majorRevision) ∧
      (⟨"const char *", "lockName"⟩ : Param) ∈ req.kind.function.params := by
  refine ⟨?_, ?_, ?_⟩
  · intro h
    simp [Storage.write, permitted, hn, h]
  · intro h
    have hw : s.write locks req =
        (.ok (), { metadata := s.metadata.apply req,
                   events := s.events ++ [s.metadata.apply req] }) := by
      simp [Storage.write, permitted, hn, h]
    rw [hw]
    refine ⟨rfl, rfl, ?_⟩
    simp only [apply_majorRevision]
    omega
  · cases req.kind <;> decide

/-- The statement of C16 in a channel where carol holds the lock `L` and nobody holds `M`:
carol's update scoped with `M` fails and changes nothing, her update scoped with `L` is
applied. -/
theorem lock_scoped_write_witness :
    Storage.write ⟨sampleMetadata, []⟩ sampleLocks { sampleUpdate with lockName := some "M" } =
        (.error .lockNotOwned, ⟨sampleMetadata, []⟩) ∧
      (Storage.write ⟨sampleMetadata, []⟩ sampleLocks
          { sampleUpdate with lockName := some "L" }).2.metadata.majorRevision = 4 :=
  ⟨(lock_scoped_write ⟨sampleMetadata, []⟩ sampleLocks { sampleUpdate with lockName := some "M" }
      "M" rfl).1 (by decide),
   by decide⟩

/-- C17: an acquisition without `retry` of a lock that somebody holds fails with the
lock-contention error and leaves the lock, its owner included, as it was.  The acquisition
function takes the `retry` flag and answers on `onAcquireLockResult`, which carries the error
code. -/
theorem acquire_held_lock_without_retry (l : Lock) (caller owner : String)
    (h : l.owner = some owner) :
    l.acquire caller false = (.lockContention, l) ∧
      (l.acquire caller false).2.owner = some owner ∧
      (⟨"bool", "retry"⟩ : Param) ∈ agora_rtm_lock_acquire_lock.params ∧
      resultSlot agora_rtm_lock_acquire_lock = some onAcquireLockResult ∧
      errorCodeIn ∈ onAcquireLockResult.params := by
  have hacq : l.acquire caller false = (.lockContention, l) := by
    simp [Lock.acquire, h]
  refine ⟨hacq, ?_, by decide, by decide, by decide⟩
  rw [hacq]
  exact h

/-- The statement of C17 for the lock `L` that carol holds, when dave asks for it; the free
lock `M` goes to dave. -/
theorem acquire_held_lock_without_retry_witness :
    (⟨"L", some "carol", 30⟩ : Lock).acquire "dave" false =
        (.lockContention, ⟨"L", some "carol", 30⟩) ∧
      (⟨"M", none, 30⟩ : Lock).acquire "dave" false = (.acquired, ⟨"M", some "dave", 30⟩) :=
  ⟨(acquire_held_lock_without_retry ⟨"L", some "carol", 30⟩ "dave" "carol" rfl).1, by decide⟩

/-! ## Statements about the remaining declarations -/

/-- C22: among the members of `C_IRtmEventHandler` only `onAcquireLockResult` has a parameter
named `errorDetails`, a `const char *`. -/
theorem errorDetails_only_on_acquire_lock :
    C_IRtmEventHandler.filter (fun s => hasName s.params "errorDetails") =
        [onAcquireLockResult] ∧
      (⟨"const char *", "errorDetails"⟩ : Param) ∈ onAcquireLockResult.params ∧
      onAcquireLockResult.isResult = true ∧
      ∀ s ∈ C_IRtmEventHandler, s ≠ onAcquireLockResult →
        hasName s.params "errorDetails" = false := by
  decide

/-- C25: among the declared functions only `agora_rtm_lock_acquire_lock` has a parameter named
`retry`, a `bool`; it is a submission function. -/
theorem retry_only_on_acquire_lock :
    (declaredFunctions ++ lifecycleFunctions).filter (fun f => hasName f.params "retry") =
        [agora_rtm_lock_acquire_lock] ∧
      (⟨"bool", "retry"⟩ : Param) ∈ agora_rtm_lock_acquire_lock.params ∧
      agora_rtm_lock_acquire_lock.isSubmission = true ∧
      ∀ f ∈ submissionFunctions, f ≠ agora_rtm_lock_acquire_lock →
        hasName f.params "retry" = false := by
  decide

/-- C30: the enumerants of `C_RTM_MESSAGE_PRIORITY` are, in declaration order, highest (0),
high (1), normal (4) and low (8); the values are pairwise distinct and strictly increasing in
that order, so of two enumerants the one with the smaller value is declared first, the more
urgent. -/
theorem priority_values_increase :
    C_RTM_MESSAGE_PRIORITY.map (fun e => (e.name, e.value, e.doc)) =
        [("RTM_MESSAGE_PRIORITY_HIGHEST", 0, "The highest priority"),
         ("RTM_MESSAGE_PRIORITY_HIGH", 1, "The high priority"),
         ("RTM_MESSAGE_PRIORITY_NORMAL", 4, "The normal priority (Default)"),
         ("RTM_MESSAGE_PRIORITY_LOW", 8, "The low priority")] ∧
      (C_RTM_MESSAGE_PRIORITY.map Enumerant.value).Pairwise (· < ·) ∧
      (C_RTM_MESSAGE_PRIORITY.map Enumerant.value).Nodup ∧
      (∀ a ∈ C_RTM_MESSAGE_PRIORITY, ∀ b ∈ C_RTM_MESSAGE_PRIORITY,
        a.value < b.value ↔
          C_RTM_MESSAGE_PRIORITY.indexOf a < C_RTM_MESSAGE_PRIORITY.indexOf b) ∧
      (⟨"enum C_RTM_MESSAGE_PRIORITY", "priority"⟩ : Param) ∈ C_JoinTopicOptions.fields := by
  decide

/-- C26: the constructor without arguments gives `maxCacheSize = 20` and null for
`eventHandler`, `scoreEventHandler` and `audioFrameObserver`. -/
theorem default_configuration :
    MusicContentCenterConfiguration.construct.maxCacheSize = 20 ∧
      MusicContentCenterConfiguration.construct.eventHandler = none ∧
      MusicContentCenterConfiguration.construct.scoreEventHandler = none ∧
      MusicContentCenterConfiguration.construct.audioFrameObserver = none := by
  decide

/-- C27: the constructor with four arguments stores each argument in the field of the same
name, so two calls that differ in an argument give different objects, and the call with 20
and three null pointers gives what the constructor without arguments gives; the initialiser
lists of the two constructors name the same four members in different orders. -/
theorem configuration_keeps_arguments (maxCacheSize : Int)
    (eventHandler scoreEventHandler audioFrameObserver : Pointer) :
    (MusicContentCenterConfiguration.constructWith maxCacheSize eventHandler scoreEventHandler
        audioFrameObserver).maxCacheSize = maxCacheSize ∧
      (MusicContentCenterConfiguration.constructWith maxCacheSize eventHandler scoreEventHandler
        audioFrameObserver).eventHandler = eventHandler ∧
      (MusicContentCenterConfiguration.constructWith maxCacheSize eventHandler scoreEventHandler
        audioFrameObserver).scoreEventHandler = scoreEventHandler ∧
      (MusicContentCenterConfiguration.constructWith maxCacheSize eventHandler scoreEventHandler
        audioFrameObserver).audioFrameObserver = audioFrameObserver ∧
      (∀ (m : Int) (e s a : Pointer),
        MusicContentCenterConfiguration.constructWith m e s a =
          MusicContentCenterConfiguration.constructWith maxCacheSize eventHandler
            scoreEventHandler audioFrameObserver →
        m = maxCacheSize ∧ e = eventHandler ∧ s = scoreEventHandler ∧ a = audioFrameObserver) ∧
      MusicContentCenterConfiguration.constructWith 20 none none none =
        MusicContentCenterConfiguration.construct ∧
      initialiserOrder.1 ≠ initialiserOrder.2 ∧
      initialiserOrder.1.Perm initialiserOrder.2 := by
  refine ⟨rfl, rfl, rfl, rfl, ?_, rfl, by decide, by decide⟩
  intro m e s a h
  simp only [MusicContentCenterConfiguration.constructWith,
    MusicContentCenterConfiguration.mk.injEq] at h
  exact h

/-- C28: a `MusicCacheInfo` built from a song code alone has both statuses equal to
`MUSIC_CACHE_STATUS_TYPE_NO_CACHED`, whose value is 2, whatever the song code; neither is
`MUSIC_CACHE_STATUS_TYPE_CACHED`. -/
theorem cache_info_starts_not_cached (songCode : Int) :
    ({ songCode := songCode } : MusicCacheInfo).musicStatus =
        MUSIC_CACHE_STATUS_TYPE_NO_CACHED ∧
      ({ songCode := songCode } : MusicCacheInfo).lyricStatus =
        MUSIC_CACHE_STATUS_TYPE_NO_CACHED ∧
      ({ songCode := songCode } : MusicCacheInfo).songCode = songCode ∧
      MUSIC_CACHE_STATUS_TYPE_NO_CACHED.value = 2 ∧
      ({ songCode := songCode } : MusicCacheInfo).musicStatus ≠ MUSIC_CACHE_STATUS_TYPE_CACHED ∧
      ({ songCode := songCode } : MusicCacheInfo).lyricStatus ≠ MUSIC_CACHE_STATUS_TYPE_CACHED := by
  have hne : MUSIC_CACHE_STATUS_TYPE_NO_CACHED ≠ MUSIC_CACHE_STATUS_TYPE_CACHED := by decide
  exact ⟨rfl, rfl, rfl, by decide, hne, hne⟩

/-- C23: every enumerant of the header whose doc comment starts with a numeric code has that
code as its value; these are the enumerants of `MusicPlayMode` (0 to 2),
`MusicContentCenterStateReason` (0 to 7), `MUSIC_CACHE_STATUS_TYPE` (0 to 3),
`LyricSourceType` (0 to 3) and `ChargeMode` (1 and 2).  The success reason is 0, and the
codes that the comments on `Music.lyricList` and on `getLyric` give for xml and lrc are the
values of `kLyricSourceXml` and `kLyricSourceLrc`. -/
theorem documented_codes_are_values :
    (∀ e ∈ musicEnumerants, ∀ n ∈ leadingCode e.doc, (n : Int) = e.value) ∧
      MusicPlayMode.map (fun e => (leadingCode e.doc, e.value)) =
        [(some 0, 0), (some 1, 1), (some 2, 2)] ∧
      MusicContentCenterStateReason.map (fun e => (leadingCode e.doc, e.value)) =
        [(some 0, 0), (some 1, 1), (some 2, 2), (some 3, 3), (some 4, 4), (some 5, 5),
         (some 6, 6), (some 7, 7)] ∧
      MUSIC_CACHE_STATUS_TYPE.map (fun e => (leadingCode e.doc, e.value)) =
        [(some 0, 0), (some 1, 1), (some 2, 2), (some 3, 3)] ∧
      LyricSourceType.map (fun e => (leadingCode e.doc, e.value)) =
        [(some 0, 0), (some 1, 1), (some 2, 2), (some 3, 3)] ∧
      ChargeMode.map (fun e => (leadingCode e.doc, e.value)) = [(some 1, 1), (some 2, 2)] ∧
      (musicEnumerants.filter fun e => (leadingCode e.doc).isSome).map Enumerant.name =
        (MusicPlayMode ++ MusicContentCenterStateReason ++ MUSIC_CACHE_STATUS_TYPE ++
          LyricSourceType ++ ChargeMode).map Enumerant.name ∧
      kMusicContentCenterReasonOk.value = 0 ∧
      (kLyricSourceXml.doc = "0: xml" ∧ kLyricSourceXml.value = 0 ∧
        occursIn "0, xml" (Music_doc "lyricList") = true ∧
        occursIn "0:xml" (IMusicContentCenter_getLyric.paramDoc "lyricType") = true) ∧
      (kLyricSourceLrc.doc = "1: lrc" ∧ kLyricSourceLrc.value = 1 ∧
        occursIn "1, lrc" (Music_doc "lyricList") = true ∧
        occursIn "1:lrc" (IMusicContentCenter_getLyric.paramDoc "lyricType") = true) := by
  refine ⟨by decide, by decide, by decide, by decide, by decide, by decide, by decide, by decide,
    ⟨by decide, by decide, by decide, by decide⟩, ⟨by decide, by decide, by decide, by decide⟩⟩

/-- C24: the parameters with a default argument are `startPos = 0` of `IMusicPlayer::open`,
`jsonOption = nullptr` of `getMusicCollectionByMusicChartId` and of `searchMusic`, and
`lyricType = 0` of `getLyric`; the comments of both `jsonOption` say that the default is null,
and 0 is the value of `kLyricSourceXml`.  For each of them a well-formed call that leaves the
argument out binds the parameters as the call that writes the default in its place. -/
theorem omitted_argument_takes_default :
    defaultedParams.map (fun mp => (mp.1.cls, mp.1.name, mp.2.name, mp.2.defaultArg)) =
        [("IMusicPlayer", "open", "startPos", some "0"),
         ("IMusicContentCenter", "getMusicCollectionByMusicChartId", "jsonOption",
           some "nullptr"),
         ("IMusicContentCenter", "searchMusic", "jsonOption", some "nullptr"),
         ("IMusicContentCenter", "getLyric", "lyricType", some "0")] ∧
      IMusicContentCenter_getMusicCollectionByMusicChartId.paramDoc "jsonOption" =
        "The ext param, default is null." ∧
      IMusicContentCenter_searchMusic.paramDoc "jsonOption" =
        "The ext param, default is null." ∧
      kLyricSourceXml.value = 0 ∧
      ∀ mp ∈ defaultedParams, ∀ d ∈ mp.2.defaultArg, ∀ args : List String,
        args.length + 1 = mp.1.params.length →
          mp.1.call args = mp.1.call (args ++ [d]) ∧
          mp.1.call (args ++ [d]) =
            some ((mp.1.params.map CxxParam.name).zip (args ++ [d])) := by
  refine ⟨by decide, by decide, by decide, by decide, ?_⟩
  intro mp hmp d hd args hlen
  have hlast := defaulted_is_last mp hmp
  have hfront : args.length = mp.1.params.dropLast.length := by
    rw [List.length_dropLast]
    omega
  constructor
  · unfold MethodDecl.call
    rw [hlast]
    exact bindArguments_omit_last _ mp.2 d hd args hfront
  · unfold MethodDecl.call
    apply bindArguments_full
    simp only [List.length_append, List.length_singleton]
    exact hlen

/-- The statement of C24 for `getLyric`: the call with a request id and a song code binds
`lyricType` to 0, as the call that writes 0 does. -/
theorem omitted_argument_takes_default_witness :
    IMusicContentCenter_getLyric.call ["requestId", "7001"] =
        some [("requestId", "requestId"), ("internalSongCode", "7001"), ("lyricType", "0")] ∧
      IMusicContentCenter_getLyric.call ["requestId", "7001"] =
        IMusicContentCenter_getLyric.call (["requestId", "7001"] ++ ["0"]) :=
  ⟨by decide,
   (omitted_argument_takes_default.2.2.2.2
      (IMusicContentCenter_getLyric, ⟨"int32_t", "lyricType", some "0",
        some "The type of the lyric file. 0:xml or 1:lrc."⟩)
      (by decide) "0" rfl ["requestId", "7001"] rfl).1⟩

/-- C29: the client and the stream channel both answer a token renewal on
`onRenewTokenResult`, whose `serverType` and `channelName` parameters tell the two apart; any
other two distinct submission functions have distinct result slots. -/
theorem result_slot_shared_only_by_renew_token :
    resultSlot agora_rtm_client_renew_token = some onRenewTokenResult ∧
      resultSlot agora_rtm_stream_channel_renew_token = some onRenewTokenResult ∧
      agora_rtm_client_renew_token.name ≠ agora_rtm_stream_channel_renew_token.name ∧
      (⟨"enum C_RTM_SERVICE_TYPE", "serverType"⟩ : Param) ∈ onRenewTokenResult.params ∧
      (⟨"const char *", "channelName"⟩ : Param) ∈ onRenewTokenResult.params ∧
      ∀ f ∈ submissionFunctions, ∀ g ∈ submissionFunctions,
        f.name ≠ g.name → resultSlot f = resultSlot g →
          (f = agora_rtm_client_renew_token ∧ g = agora_rtm_stream_channel_renew_token) ∨
          (f = agora_rtm_stream_channel_renew_token ∧ g = agora_rtm_client_renew_token) := by
  decide

end AgoraRtm
